import Mathlib

/-!
# Verification of the MT5 order-lifecycle engine (mt5-automator)

Shallow embedding, in Lean 4, of the order-lifecycle and position-management
logic of the repository: the signal ledger (`src/utils.py`), risk sizing
(`src/risk_manager.py`), order placement (`src/mt5_engine.py`),
position tracking with trailing stops (`src/position_tracker.py`) and the
one-shot TP2 protection controller (`src/tp_protection.py`), together with
the signal-processing pipeline of `main.py`.

Modelling conventions:
* Python floats are modelled as rational numbers (`ℚ`); the claims under
  study are about the algebra of the computations, not about binary
  floating-point rounding.
* Python `round` (banker's rounding, round-half-to-even) is modelled
  exactly by `pyRound` below.
* Python truthiness on numbers (`if sl:` is false for `None` and for `0.0`)
  is modelled explicitly (`pyTruthy`, `pyOrQ`).
* Timestamps (`datetime.now().isoformat()`) are modelled as natural
  numbers supplied by the caller.
* The JSON signal database file is modelled as a list of records, in file
  order (appends go to the end).
* Venue (MetaTrader 5 terminal) responses are explicit inputs; for the
  protection controller the success path of `cancel_pending_order` /
  `modify_position` is modelled (a cancel removes the order, a modify sets
  the stop), matching the repository's deterministic dry-run venue.
-/

namespace MT5

/-- `a` is a leading segment of `b` (on character lists). -/
def startsWithChars : List Char → List Char → Bool
  | [], _ => true
  | _ :: _, [] => false
  | a :: as, b :: bs => a == b && startsWithChars as bs

/-- `needle` occurs contiguously inside `hay` (on character lists). -/
def hasSubChars (needle : List Char) : List Char → Bool
  | [] => startsWithChars needle []
  | c :: cs => startsWithChars needle (c :: cs) || hasSubChars needle cs

/-- Python's `needle in s` substring test on strings. -/
def containsSub (needle s : String) : Bool :=
  hasSubChars needle.toList s.toList

/-- Python truthiness of an optional float (`None` and `0.0` are falsy). -/
def pyTruthy : Option ℚ → Bool
  | none => false
  | some q => q != 0

/-- Python `a or b` on optional floats: returns `a` when truthy, else `b`. -/
def pyOrQ (a b : Option ℚ) : Option ℚ :=
  if pyTruthy a then a else b

/-- Python `round` on a rational: round half to even (banker's rounding). -/
def pyRound (x : ℚ) : ℤ :=
  let f : ℤ := ⌊x⌋
  let r : ℚ := x - f
  if r < 1/2 then f
  else if 1/2 < r then f + 1
  else if Even f then f else f + 1

/-- Python `round(x, 2)` on a rational. -/
def pyRound2 (x : ℚ) : ℚ :=
  (pyRound (x * 100) : ℚ) / 100

/-! ## Signal data model (`src/utils.py`, `src/signal_parser.py`)

A parsed signal: direction, symbol, three entry levels, up to three
stop-loss and three take-profit levels (absent levels are `none`). -/

structure Signal where
  direction : String
  symbol : String
  entry_upper : ℚ
  entry_middle : ℚ
  entry_lower : ℚ
  sl1 : Option ℚ := none
  sl2 : Option ℚ := none
  sl3 : Option ℚ := none
  tp1 : Option ℚ := none
  tp2 : Option ℚ := none
  tp3 : Option ℚ := none
  deriving Repr, DecidableEq

/-- Rendering of a rational field into the fingerprint key string, standing
for Python's `str(float)`.  Only its extensionality (equal values give equal
text) matters to the theorems below. -/
def pyStrQ (q : ℚ) : String := toString q

/-- Rendering of an optional field (`str(None) = "None"`). -/
def pyStrOpt : Option ℚ → String
  | none => "None"
  | some q => pyStrQ q

/-- `utils.generate_signal_id`, the key string:
`f"{direction}_{entry_upper}_{entry_lower}_{tp1}_{tp2}"`. -/
def signalKeyString (s : Signal) : String :=
  s.direction ++ "_" ++ pyStrQ s.entry_upper ++ "_" ++ pyStrQ s.entry_lower
    ++ "_" ++ pyStrOpt s.tp1 ++ "_" ++ pyStrOpt s.tp2

/-- `utils.generate_signal_id`: MD5 of the key string, truncated to 12 hex
characters.  The MD5 digest is a fixed deterministic function of the key
string; it is abstracted as the parameter `md5hex`. -/
def generate_signal_id (md5hex : String → String) (s : Signal) : String :=
  (md5hex (signalKeyString s)).take 12

/-! ## Signal ledger (`src/utils.py`) -/

/-- One record of the signal database file `data/signals_db.json`
(the fields relevant to status handling). -/
structure SignalRecord where
  signal_id : String
  status : String
  status_updated_at : ℕ := 0
  deriving Repr, DecidableEq

/-- `utils.get_signal_by_id`: most recent (= last appended) record with the
given id. -/
def get_signal_by_id (signal_id : String) (db : List SignalRecord) :
    Option SignalRecord :=
  db.reverse.find? (fun r => r.signal_id == signal_id)

/-- `utils.check_signal_status`: status of the most recent record with the
given id, `none` when the id is unknown. -/
def check_signal_status (signal_id : String) (db : List SignalRecord) :
    Option String :=
  (get_signal_by_id signal_id db).map (·.status)

/-- `utils.save_signal_to_db`: append a record; a freshly parsed signal has
no `status` key, so the default `'active'` is stored. -/
def save_signal_to_db (signal_id : String) (now : ℕ)
    (db : List SignalRecord) : List SignalRecord :=
  db ++ [{ signal_id := signal_id, status := "active",
           status_updated_at := now }]

/-- `utils.update_signal_status`: set `status` (and the update timestamp) on
every record with the given id; returns whether any record matched, and the
database is rewritten only in that case. -/
def update_signal_status (signal_id status : String) (now : ℕ)
    (db : List SignalRecord) : Bool × List SignalRecord :=
  let updated := db.any (fun r => r.signal_id == signal_id)
  let db' := db.map (fun r =>
    if r.signal_id == signal_id then
      { r with status := status, status_updated_at := now }
    else r)
  if updated then (true, db') else (false, db)

/-! ## Pip arithmetic (`src/utils.py`) -/

/-- `utils.calculate_pip_distance`: distance between two prices in pips,
with the instrument classification exactly as in the source
(`'XAU' in symbol or 'GOLD' in symbol` → 0.01, `'JPY' in symbol` → 0.01,
otherwise 0.0001). -/
def calculate_pip_distance (price1 price2 : ℚ) (symbol : String) : ℚ :=
  if containsSub "XAU" symbol || containsSub "GOLD" symbol then
    |price1 - price2| / (1/100)
  else if containsSub "JPY" symbol then
    |price1 - price2| / (1/100)
  else
    |price1 - price2| / (1/10000)

/-! ## Risk sizing (`src/risk_manager.py`) -/

/-- Venue symbol information, as returned by `MT5Engine.get_symbol_info`
(the fields the sizing calculator reads). -/
structure SymbolInfo where
  point : ℚ
  trade_contract_size : ℚ
  volume_min : ℚ
  volume_max : ℚ
  volume_step : ℚ
  deriving Repr, DecidableEq

/-- The per-lot pip value of `RiskManager._calculate_lot_size`
(`contract_size * 0.01` for XAU/GOLD and JPY symbols, else
`contract_size * 0.0001`). -/
def pip_value_per_lot (symbol : String) (contract_size : ℚ) : ℚ :=
  if containsSub "XAU" symbol || containsSub "GOLD" symbol then
    contract_size * (1/100)
  else if containsSub "JPY" symbol then
    contract_size * (1/100)
  else
    contract_size * (1/10000)

/-- `RiskManager._calculate_lot_size`: risk budget divided by
(pip distance × pip value per lot), rounded to the volume step, clamped to
the venue's `[volume_min, volume_max]`, and rounded to two decimals. -/
def calculate_lot_size (symbol : String) (entry_price sl_price : ℚ)
    (risk_amount : ℚ) (info : SymbolInfo) : Option ℚ :=
  let pip_distance := calculate_pip_distance entry_price sl_price symbol
  if pip_distance = 0 then none
  else
    let pvpl := pip_value_per_lot symbol info.trade_contract_size
    let lot := risk_amount / (pip_distance * pvpl)
    let stepped := (pyRound (lot / info.volume_step) : ℚ) * info.volume_step
    let clamped := max info.volume_min (min stepped info.volume_max)
    some (pyRound2 clamped)

/-- Entry price used for a slot in `RiskManager.calculate_lot_sizes`
(`pos 1 → entry_upper`, `pos 2 → entry_middle`, otherwise `entry_lower`). -/
def slotEntry (s : Signal) (pos : ℕ) : ℚ :=
  if pos = 1 then s.entry_upper
  else if pos = 2 then s.entry_middle
  else s.entry_lower

/-- Stop-loss resolution for a slot in `RiskManager.calculate_lot_sizes`:
the per-slot stop (`sl1`, `sl2`, `sl3 or sl2` — Python `or`, so a `0.0`
stop also falls through), then the first available stop, then the default
"50 pips" distance `50 * point * 10` below (BUY) or above (SELL) entry. -/
def slotSl (s : Signal) (pos : ℕ) (point : ℚ) : ℚ :=
  let sl₀ : Option ℚ :=
    if pos = 1 then s.sl1
    else if pos = 2 then s.sl2
    else pyOrQ s.sl3 s.sl2
  let sl₁ : Option ℚ :=
    match sl₀ with
    | some v => some v
    | none => pyOrQ s.sl1 (pyOrQ s.sl2 s.sl3)
  match sl₁ with
  | some v => v
  | none =>
      let entry := slotEntry s pos
      if s.direction = "BUY" then entry - 50 * point * 10
      else entry + 50 * point * 10

/-- Per-slot loop of `RiskManager.calculate_lot_sizes`: one
`_calculate_lot_size` call per slot, failing the whole signal (`none`)
when any slot fails. -/
def lotSizesLoop (s : Signal) (info : SymbolInfo)
    (risk_per_position : ℚ) : List ℕ → Option (List ℚ)
  | [] => some []
  | pos :: rest =>
    match calculate_lot_size s.symbol (slotEntry s pos)
        (slotSl s pos info.point) risk_per_position info with
    | none => none
    | some lot =>
      match lotSizesLoop s info risk_per_position rest with
      | none => none
      | some lots => some (lot :: lots)

/-- `RiskManager.calculate_lot_sizes`: total budget
`balance * risk_percent / 100`, per-slot budget `total / num_positions`,
then the per-slot loop over slots `1 .. num_positions`. -/
def calculate_lot_sizes (balance risk_percent : ℚ) (num_positions : ℕ)
    (s : Signal) (info : SymbolInfo) : Option (List ℚ) :=
  let risk_amount := balance * (risk_percent / 100)
  let risk_per_position := risk_amount / (num_positions : ℚ)
  lotSizesLoop s info risk_per_position
    ((List.range num_positions).map (· + 1))


/-! ## Order placement (`src/mt5_engine.py`, `MT5Engine.place_order`) -/

/-- MT5 order types used by `place_order`. -/
inductive MT5OrderType
  | buy
  | buyLimit
  | sell
  | sellLimit
  deriving Repr, DecidableEq

/-- `TRADE_ACTION_DEAL` (immediate/market) vs `TRADE_ACTION_PENDING`
(resting/limit). -/
inductive TradeAction
  | deal
  | pending
  deriving Repr, DecidableEq

/-- The single `order_send` request built by `place_order`
(the fields the claims are about). -/
structure OrderRequest where
  action : TradeAction
  symbol : String
  volume : ℚ
  typ : MT5OrderType
  price : ℚ
  sl : Option ℚ
  tp : Option ℚ
  comment : String
  deriving Repr, DecidableEq

/-- Venue-mutating calls a placement/modification routine can issue. -/
inductive VenueCall
  | orderSend (req : OrderRequest)
  | modifySLTP (ticket : ℕ) (sl tp : Option ℚ)
  deriving Repr, DecidableEq

/-- Slot parameters of `place_order`: intended entry price, stop-loss and
take-profit for a position number, direction-dependent exactly as in the
source (slots 2 and 3 use `sl1` for all positions; slot 1's target is `tp2`
when `POSITION_1_TP=TP2` is configured, else `tp1`; slot 3 has no target
when the runner strategy is enabled, else `tp2`).  `none` for an invalid
position number. -/
def slotParams (s : Signal) (position_num : ℕ) (position_1_tp : String)
    (runner_enabled : Bool) : Option (ℚ × Option ℚ × Option ℚ) :=
  if s.direction = "SELL" then
    if position_num = 1 then
      some (s.entry_lower, s.sl1, if position_1_tp = "TP2" then s.tp2 else s.tp1)
    else if position_num = 2 then
      some (s.entry_middle, s.sl1, s.tp2)
    else if position_num = 3 then
      some (s.entry_upper, s.sl1, if runner_enabled then none else s.tp2)
    else none
  else
    if position_num = 1 then
      some (s.entry_upper, s.sl1, if position_1_tp = "TP2" then s.tp2 else s.tp1)
    else if position_num = 2 then
      some (s.entry_middle, s.sl1, s.tp2)
    else if position_num = 3 then
      some (s.entry_lower, s.sl1, if runner_enabled then none else s.tp2)
    else none

/-- Order-kind decision of `place_order` for a BUY signal, given the ask
price: market iff this is position 1 and the ask lies inside
`[entry_lower, entry_upper]`; otherwise a limit order at the intended
entry.  Returns (action, type, execution price). -/
def orderKindBuy (position_num : ℕ) (ask entry_lower entry_upper
    entry_price : ℚ) : TradeAction × MT5OrderType × ℚ :=
  let price_within_range := entry_lower ≤ ask ∧ ask ≤ entry_upper
  if position_num = 1 ∧ price_within_range then
    (TradeAction.deal, MT5OrderType.buy, ask)
  else
    (TradeAction.pending, MT5OrderType.buyLimit, entry_price)

/-- Order-kind decision of `place_order` for a SELL signal, given the bid
price: market for every position when the bid is within 1.0 of
`entry_upper`; else market for position 1 inside the zone; else market for
position 2 when the bid is below `entry_middle`; otherwise a limit order at
the intended entry. -/
def orderKindSell (position_num : ℕ) (bid entry_lower entry_upper
    entry_middle entry_price : ℚ) : TradeAction × MT5OrderType × ℚ :=
  let price_within_range := entry_lower ≤ bid ∧ bid ≤ entry_upper
  let at_entry_upper := |bid - entry_upper| < 1
  if at_entry_upper then
    (TradeAction.deal, MT5OrderType.sell, bid)
  else if position_num = 1 ∧ price_within_range then
    (TradeAction.deal, MT5OrderType.sell, bid)
  else if position_num = 2 ∧ bid < entry_middle then
    (TradeAction.deal, MT5OrderType.sell, bid)
  else
    (TradeAction.pending, MT5OrderType.sellLimit, entry_price)

/-- `MT5Engine.place_order`: determine the slot's entry/SL/TP, decide
market vs limit from the live price, and issue ONE `order_send` request
carrying the stop-loss and take-profit (`if sl:` / `if tp:` — Python
truthiness).  Returns the request together with the venue-mutating call
trace of the routine; `none` models the early error returns (invalid
position number, or no current price). -/
def place_order (s : Signal) (position_num : ℕ) (lot_size : ℚ)
    (signal_id : String) (position_1_tp : String) (runner_enabled : Bool)
    (ask bid : Option ℚ) : Option (OrderRequest × List VenueCall) :=
  match slotParams s position_num position_1_tp runner_enabled with
  | none => none
  | some (entry_price, sl, tp) =>
    match ask with
    | none => none
    | some askPrice =>
      let kind :=
        if s.direction = "SELL" then
          orderKindSell position_num (bid.getD askPrice) s.entry_lower
            s.entry_upper s.entry_middle entry_price
        else
          orderKindBuy position_num askPrice s.entry_lower s.entry_upper
            entry_price
      let req : OrderRequest :=
        { action := kind.1
          symbol := s.symbol
          volume := lot_size
          typ := kind.2.1
          price := kind.2.2
          sl := if pyTruthy sl then sl else none
          tp := if pyTruthy tp then tp else none
          comment := signal_id ++ "_pos" ++ toString position_num }
      some (req, [VenueCall.orderSend req])

/-! ## Position tracking and trailing stops (`src/position_tracker.py`) -/

/-- A venue-side open position, as surfaced by
`MT5Engine.get_positions_by_signal` (fields read by the tracker and the
protection controller).  MT5 reports `sl = 0.0` when no stop is set. -/
structure Position where
  ticket : ℕ
  symbol : String
  open_price : ℚ
  sl : ℚ
  tp : ℚ
  comment : String
  deriving Repr, DecidableEq

/-- A venue-side pending (resting) order, as surfaced by
`MT5Engine.get_pending_orders_by_signal`. -/
structure PendingOrder where
  ticket : ℕ
  symbol : String
  price_open : ℚ
  comment : String
  deriving Repr, DecidableEq

/-- Tracker/trailing configuration keys read by `PositionTracker`. -/
structure TrailingConfig where
  trailing_stop_pips : ℚ
  trailing_stop_activation_pips : ℚ
  position_3_runner_enabled : Bool
  position_3_trailing_after_tp2 : Bool
  deriving Repr, DecidableEq

/-- Characters after the last occurrence of `tag` in a character list
(`none` when `tag` does not occur): the Python
`comment.split('_pos')[-1]` under the guard that `'_pos' in comment`. -/
def afterLastTag (tag : List Char) : List Char → Option (List Char)
  | [] => none
  | c :: cs =>
    match afterLastTag tag cs with
    | some r => some r
    | none =>
      if startsWithChars tag (c :: cs) then
        some (List.drop tag.length (c :: cs))
      else none

/-- Python `int(s)` on the digit strings the order comments carry
(`None` models the caught `ValueError` on non-digit text). -/
def parseNatChars (cs : List Char) : Option ℕ :=
  if cs ≠ [] ∧ cs.all (·.isDigit) then
    some (cs.foldl (fun n c => 10 * n + (c.toNat - 48)) 0)
  else none

/-- `PositionTracker.get_position_num`: tracked `(ticket, position_num)`
pairs take precedence; fallback parses the integer after the last `_pos`
tag of the order comment. -/
def get_position_num (tracked : List (ℕ × ℕ)) (ticket : ℕ)
    (comment : String) : Option ℕ :=
  match tracked.find? (fun p => p.1 == ticket) with
  | some p => some p.2
  | none =>
    if comment ≠ "" ∧ containsSub "_pos" comment then
      (afterLastTag "_pos".toList comment.toList).bind parseNatChars
    else none

/-- Pip value used by `PositionTracker` (`_check_trailing_stop` and
`activate_position_3_trailing`): 0.01 for XAU/GOLD/BTC and JPY symbols,
0.0001 otherwise.  (Note: unlike the sizing path, this one has a BTC
branch.) -/
def trackerPipValue (symbol : String) : ℚ :=
  if containsSub "XAU" symbol || containsSub "GOLD" symbol
      || containsSub "BTC" symbol then 1/100
  else if containsSub "JPY" symbol then 1/100
  else 1/10000

/-- Result of one `_check_trailing_stop` poll on one position: the updated
best-price map, and the stop value written through
`MT5Engine.modify_position` (`none` when no modification was issued). -/
structure TrailResult where
  best : ℕ → Option ℚ
  write : Option ℚ
  deriving Inhabited

/-- `PositionTracker._check_trailing_stop`, one poll iteration for one
position.  `stop_level` is the broker's minimum stop distance
(`trade_stops_level * point`; `0` disables the check). -/
def check_trailing_stop (cfg : TrailingConfig) (tracked : List (ℕ × ℕ))
    (activated : ℕ → Bool) (best : ℕ → Option ℚ) (pos : Position)
    (direction symbol : String) (current_price stop_level : ℚ) :
    TrailResult :=
  let ticket := pos.ticket
  let current_sl := pos.sl
  let pos_num := get_position_num tracked ticket pos.comment
  let is_position_3 := pos_num = some 3
  if cfg.position_3_runner_enabled ∧ cfg.position_3_trailing_after_tp2
      ∧ ¬is_position_3 then
    -- only Position 3 ever trails in runner mode
    ⟨best, none⟩
  else if is_position_3 ∧ cfg.position_3_runner_enabled
      ∧ cfg.position_3_trailing_after_tp2 ∧ ¬(activated ticket = true) then
    -- TP2 not reached yet: the runner does not trail
    ⟨best, none⟩
  else
    let tp2_reached_for_position_3 :=
      is_position_3 ∧ cfg.position_3_runner_enabled
        ∧ cfg.position_3_trailing_after_tp2
    let pip_value := trackerPipValue symbol
    let trailing_distance := cfg.trailing_stop_pips * pip_value
    let activation_distance := cfg.trailing_stop_activation_pips * pip_value
    let profit_distance :=
      if direction = "BUY" then current_price - pos.open_price
      else pos.open_price - current_price
    if ¬tp2_reached_for_position_3 ∧ profit_distance < activation_distance
    then ⟨best, none⟩
    else
      -- `if ticket not in best: best[ticket] = current` …
      let b₀ := (best ticket).getD current_price
      -- … then ratchet the running best (max seen for BUY, min for SELL)
      let best_price :=
        if direction = "BUY" then
          if current_price > b₀ then current_price else b₀
        else
          if current_price < b₀ then current_price else b₀
      let best₂ : ℕ → Option ℚ := fun t =>
        if t = ticket then some best_price else best t
      let new_sl :=
        if direction = "BUY" then best_price - trailing_distance
        else best_price + trailing_distance
      let should_move :=
        if direction = "BUY" then current_sl = 0 ∨ new_sl > current_sl
        else current_sl = 0 ∨ new_sl < current_sl
      if should_move then
        if 0 < stop_level ∧
            (if direction = "BUY" then current_price - stop_level < new_sl
             else new_sl < current_price + stop_level) then
          -- stop too close to market: deferred to the next poll
          ⟨best₂, none⟩
        else ⟨best₂, some new_sl⟩
      else ⟨best₂, none⟩

/-- Result of `PositionTracker.activate_position_3_trailing`. -/
structure ActivateResult where
  tp2_reached_signals : String → Bool
  best : ℕ → Option ℚ
  activated : ℕ → Bool
  write : Option (ℕ × ℚ)
  ok : Bool

/-- Loop body of `activate_position_3_trailing` over the signal's open
positions: skip non-runner slots, stop at the first Position 3 (already
activated → `True`; otherwise anchor its stop at `tp2 ∓ trailing distance`
and record the best price). -/
def activateLoop (cfg : TrailingConfig) (tracked : List (ℕ × ℕ))
    (tp2_reached : String → Bool) (best : ℕ → Option ℚ)
    (activated : ℕ → Bool) (symbol direction : String) (tp2 : ℚ)
    (current_price : Option ℚ) : List Position → ActivateResult
  | [] => ⟨tp2_reached, best, activated, none, false⟩
  | p :: rest =>
    if ¬(get_position_num tracked p.ticket p.comment = some 3) then
      activateLoop cfg tracked tp2_reached best activated symbol direction
        tp2 current_price rest
    else if activated p.ticket then
      ⟨tp2_reached, best, activated, none, true⟩
    else
      let pip_value := trackerPipValue symbol
      let trailing_distance := cfg.trailing_stop_pips * pip_value
      let new_sl :=
        if direction = "BUY" then tp2 - trailing_distance
        else tp2 + trailing_distance
      let tp2_or_current := current_price.getD tp2
      let best' : ℕ → Option ℚ := fun t =>
        if t = p.ticket then some tp2_or_current else best t
      -- modify_position succeeds on the modelled venue
      let activated' : ℕ → Bool := fun t =>
        if t = p.ticket then true else activated t
      ⟨tp2_reached, best', activated', some (p.ticket, new_sl), true⟩

/-- `PositionTracker.activate_position_3_trailing`: runs only with a known
signal carrying a truthy `tp2` and direction and at least one open
position; marks the signal's TP2 as reached and arms the first
not-yet-activated Position 3, anchoring its stop at
`tp2 - trailing_distance` (BUY) / `tp2 + trailing_distance` (SELL). -/
def activate_position_3_trailing (cfg : TrailingConfig)
    (tracked : List (ℕ × ℕ)) (tp2_reached : String → Bool)
    (best : ℕ → Option ℚ) (activated : ℕ → Bool) (signal_id : String)
    (signal : Option Signal) (lookup : Option Signal)
    (positions : List Position) (current_price : Option ℚ) :
    ActivateResult :=
  match signal.orElse (fun _ => lookup) with
  | none => ⟨tp2_reached, best, activated, none, false⟩
  | some s =>
    match s.tp2 with
    | none => ⟨tp2_reached, best, activated, none, false⟩
    | some tp2 =>
      if tp2 = 0 ∨ s.direction = "" then
        ⟨tp2_reached, best, activated, none, false⟩
      else if positions = [] then
        ⟨tp2_reached, best, activated, none, false⟩
      else
        let tp2_reached' : String → Bool := fun i =>
          if i = signal_id then true else tp2_reached i
        activateLoop cfg tracked tp2_reached' best activated s.symbol
          s.direction tp2 current_price positions

/-- `PositionTracker._check_tp2_reached`: fires the runner-arming routine
when the live price has touched `tp2` (`≥` for BUY, `≤` for SELL) or the
historical-deals fallback (`MT5Engine.was_tp_hit`, here the input
`was_tp_hit`) confirms it; otherwise leaves all tracker state unchanged. -/
def check_tp2_reached (cfg : TrailingConfig) (tracked : List (ℕ × ℕ))
    (tp2_reached : String → Bool) (best : ℕ → Option ℚ)
    (activated : ℕ → Bool) (signal_id : String) (s : Signal)
    (current_price : ℚ) (was_tp_hit : Bool) (positions : List Position) :
    ActivateResult :=
  match s.tp2 with
  | none => ⟨tp2_reached, best, activated, none, false⟩
  | some tp2 =>
    if tp2 = 0 then ⟨tp2_reached, best, activated, none, false⟩
    else
      let live :=
        if s.direction = "BUY" then tp2 ≤ current_price
        else current_price ≤ tp2
      if live ∨ was_tp_hit then
        activate_position_3_trailing cfg tracked tp2_reached best activated
          signal_id (some s) none positions (some current_price)
      else ⟨tp2_reached, best, activated, none, false⟩

/-! ## One-shot TP2 protection (`src/tp_protection.py`) -/

/-- A signal registered with the tracker
(`PositionTracker.active_signals`): id, the signal, and the tracked
`(ticket, position_num)` pairs. -/
structure TrackedSignal where
  signal_id : String
  signal : Signal
  positions : List (ℕ × ℕ)
  deriving Repr, DecidableEq

/-- The venue's live order book as seen through the engine accessors. -/
structure Venue where
  pending : List PendingOrder
  positions : List Position
  deriving Repr, DecidableEq

/-- `MT5Engine.get_pending_orders_by_signal`: all pending orders whose
comment contains the signal id. -/
def get_pending_orders_by_signal (signal_id : String) (v : Venue) :
    List PendingOrder :=
  v.pending.filter (fun o => containsSub signal_id o.comment)

/-- `MT5Engine.get_positions_by_signal`: all open positions whose comment
contains the signal id. -/
def get_positions_by_signal (signal_id : String) (v : Venue) :
    List Position :=
  v.positions.filter (fun p => containsSub signal_id p.comment)

/-- Full state touched by `TP2Protection.activate_protection`. -/
structure ProtectionState where
  venue : Venue
  protected_signals : String → Bool
  protection_timestamps : String → Option ℕ
  db : List SignalRecord
  tracker_signals : List TrackedSignal

/-- Venue-mutating effects issued by one `activate_protection` call:
cancelled pending-order tickets, and `(ticket, new stop)` modifications. -/
structure ProtEffects where
  cancelled : List ℕ
  modified : List (ℕ × ℚ)
  deriving Repr, DecidableEq

/-- Per-position body of `TP2Protection._move_positions_to_breakeven`:
skip the Position 3 runner (`'_pos3' in comment`) when the runner strategy
is enabled; otherwise move the stop to `open ± 0.1` only when that is more
favorable than the current stop (or no stop is set). -/
def breakevenMove (runner_enabled : Bool) (direction : String)
    (p : Position) : Position × Option (ℕ × ℚ) :=
  if containsSub "_pos3" p.comment ∧ runner_enabled then (p, none)
  else if direction = "BUY" then
    let new_sl := p.open_price + 1/10
    if p.sl = 0 ∨ new_sl > p.sl then
      ({ p with sl := new_sl }, some (p.ticket, new_sl))
    else (p, none)
  else
    let new_sl := p.open_price - 1/10
    if p.sl = 0 ∨ new_sl < p.sl then
      ({ p with sl := new_sl }, some (p.ticket, new_sl))
    else (p, none)

/-- `TP2Protection._move_positions_to_breakeven` over the whole venue:
positions of other signals are untouched. -/
def move_positions_to_breakeven (runner_enabled : Bool) (signal_id : String)
    (tracker_signals : List TrackedSignal) (v : Venue) :
    Venue × List (ℕ × ℚ) :=
  match tracker_signals.find? (fun t => t.signal_id == signal_id) with
  | none => (v, [])
  | some info =>
    let direction := info.signal.direction
    let stepped := v.positions.map (fun p =>
      if containsSub signal_id p.comment then
        breakevenMove runner_enabled direction p
      else (p, none))
    ({ v with positions := stepped.map Prod.fst },
      stepped.filterMap Prod.snd)

/-- The pending orders `TP2Protection.activate_protection` selects for
cancellation: those matching the signal id, falling back — when none
match — to every pending order of the signal's (tracker-known) symbol. -/
def protSelectedPending (st : ProtectionState) (signal_id : String) :
    List PendingOrder :=
  let pending₀ := get_pending_orders_by_signal signal_id st.venue
  if pending₀ = [] then
    match st.tracker_signals.find? (fun t => t.signal_id == signal_id) with
    | none => pending₀
    | some info =>
      if info.signal.symbol = "" then pending₀
      else
        let symbol_orders :=
          st.venue.pending.filter (fun o => o.symbol == info.signal.symbol)
        if symbol_orders = [] then pending₀ else symbol_orders
  else pending₀

/-- `TP2Protection.activate_protection` on the modelled (dry-run-style)
venue, where cancellations and stop modifications succeed: cancel the
selected pending orders, optionally move the non-runner open positions to
breakeven, add the signal to the protected set, record the activation
timestamp `now`, and write ledger status `tp2_hit`.  Returns the new
state, the effects issued, and the boolean result. -/
def activate_protection (runner_enabled : Bool) (st : ProtectionState)
    (signal_id : String) (move_to_breakeven : Bool) (now : ℕ) :
    ProtectionState × ProtEffects × Bool :=
  let pending := protSelectedPending st signal_id
  let cancelledTickets := pending.map (·.ticket)
  let venue₁ : Venue :=
    { st.venue with
      pending := st.venue.pending.filter
        (fun o => ¬ cancelledTickets.contains o.ticket) }
  let bk :=
    if move_to_breakeven then
      move_positions_to_breakeven runner_enabled signal_id
        st.tracker_signals venue₁
    else (venue₁, [])
  ({ venue := bk.1
     protected_signals := fun i =>
       if i = signal_id then true else st.protected_signals i
     protection_timestamps := fun i =>
       if i = signal_id then some now else st.protection_timestamps i
     db := (update_signal_status signal_id "tp2_hit" now st.db).2
     tracker_signals := st.tracker_signals },
   { cancelled := cancelledTickets, modified := bk.2 },
   true)

/-! ## Signal pipeline (`main.py`, `MT5Automator.process_signal`,
from the signal-id computation onward) -/

/-- External inputs of one `process_signal` run: the hash primitive, the
wall clock, the in-session TP2 protection set, whether opposite-direction
positions are open, account/symbol data for sizing, the
`validate_trade` verdict, and the per-slot placement outcome (ticket or
failure) returned by the venue. -/
structure ProcEnv where
  md5hex : String → String
  now : ℕ
  protected_signals : String → Bool
  opposite_open : Bool
  balance : ℚ
  risk_percent : ℚ
  num_positions : ℕ
  symbol_info : SymbolInfo
  validate_ok : Bool
  place_ticket : ℕ → Option ℕ

/-- Persistent/shared state read and written by `process_signal`: the
signal database and the tracker's registered signals. -/
structure ProcState where
  db : List SignalRecord
  tracked : List TrackedSignal

/-- Outcome of one `process_signal` run: the final state, how many order
placements were attempted, and how many succeeded. -/
structure ProcOutcome where
  state : ProcState
  ordersAttempted : ℕ
  ordersPlaced : ℕ

/-- Order-placement loop of `process_signal`: one `place_order` per lot
size; a failed slot is logged and the remaining slots are still tried. -/
def placementLoop (env : ProcEnv) (signal_id : String)
    (tracked : List TrackedSignal) : List ℕ → List TrackedSignal × ℕ
  | [] => (tracked, 0)
  | i :: rest =>
    match env.place_ticket i with
    | none => placementLoop env signal_id tracked rest
    | some ticket =>
      let tracked' := tracked.map (fun t =>
        if t.signal_id == signal_id then
          { t with positions := t.positions ++ [(ticket, i)] }
        else t)
      let (trackedFin, n) := placementLoop env signal_id tracked' rest
      (trackedFin, n + 1)

/-- `MT5Automator.process_signal` from the point where the parsed signal is
in hand (`main.py:238-318`): compute the fingerprint, drop the signal with
no side effects when its ledger status is already `tp2_hit`/`completed`,
when the in-session protection set blocks it, or when opposite-direction
positions are open; otherwise persist it, size it, validate, register it
for tracking and place the orders. -/
def process_signal (env : ProcEnv) (s : Signal) (st : ProcState) :
    ProcOutcome :=
  let signal_id := generate_signal_id env.md5hex s
  let existing_status := check_signal_status signal_id st.db
  if existing_status = some "tp2_hit" ∨ existing_status = some "completed"
  then ⟨st, 0, 0⟩
  else if env.protected_signals signal_id then ⟨st, 0, 0⟩
  else if env.opposite_open then ⟨st, 0, 0⟩
  else
    let db₁ := save_signal_to_db signal_id env.now st.db
    match calculate_lot_sizes env.balance env.risk_percent
        env.num_positions s env.symbol_info with
    | none => ⟨⟨db₁, st.tracked⟩, 0, 0⟩
    | some lots =>
      if ¬env.validate_ok then ⟨⟨db₁, st.tracked⟩, 0, 0⟩
      else
        let tracked₁ :=
          st.tracked.filter (fun t => ¬(t.signal_id == signal_id))
            ++ [⟨signal_id, s, []⟩]
        let (tracked₂, placed) :=
          placementLoop env signal_id tracked₁
            ((List.range lots.length).map (· + 1))
        ⟨⟨db₁, tracked₂⟩, lots.length, placed⟩

/-! ## Spec-side statement of the staged-entry rule (for claim C5)

This definition follows the SPEC's words, not the source, so that the
source-derived `place_order` can be compared against it: given the current
price `P` of the relevant side, a price strictly outside the entry zone
makes every slot a resting order at its intended price; a price inside the
zone makes exactly the slots whose intended price is at or past `P`
(`P ≤ intended` for BUY, `intended ≤ P` for SELL) immediate orders, the
others resting at their intended price. -/
def stagedEntrySpecClaim : Prop :=
  ∀ (s : Signal) (pos : ℕ) (lot : ℚ) (sid p1tp : String) (runner : Bool)
    (ask bid : ℚ) (req : OrderRequest) (trace : List VenueCall)
    (entry : ℚ) (sl tp : Option ℚ),
    slotParams s pos p1tp runner = some (entry, sl, tp) →
    place_order s pos lot sid p1tp runner (some ask) (some bid)
      = some (req, trace) →
    ((if s.direction = "SELL" then bid else ask) < s.entry_lower
        ∨ s.entry_upper < (if s.direction = "SELL" then bid else ask) →
      req.action = TradeAction.pending ∧ req.price = entry) ∧
    (s.entry_lower ≤ (if s.direction = "SELL" then bid else ask) →
      (if s.direction = "SELL" then bid else ask) ≤ s.entry_upper →
      (if s.direction = "SELL" then entry ≤ bid else ask ≤ entry) →
      req.action = TradeAction.deal) ∧
    (s.entry_lower ≤ (if s.direction = "SELL" then bid else ask) →
      (if s.direction = "SELL" then bid else ask) ≤ s.entry_upper →
      ¬(if s.direction = "SELL" then entry ≤ bid else ask ≤ entry) →
      req.action = TradeAction.pending ∧ req.price = entry)

/-! ## Stop-loss write sequences (for claim C3) -/

/-- One event acting on a position's stop: a trailing-supervision poll
(`PositionTracker._check_trailing_stop`, with that poll's tracked pairs,
runner-activation set, market price and broker stop level) or a
protection-breakeven attempt
(`TP2Protection._move_positions_to_breakeven`). -/
inductive SLEvent
  | trail (tracked : List (ℕ × ℕ)) (activated : ℕ → Bool)
      (current_price stop_level : ℚ)
  | protectBreakeven

/-- Evolving per-position supervision state: the venue-side stop-loss and
the tracker's best-price map. -/
structure PosState where
  sl : ℚ
  best : ℕ → Option ℚ

/-- One supervision step on a position's stop: the trailing poll writes
through `check_trailing_stop`, the protection path through
`breakevenMove`; a step that issues no modification leaves the stop
unchanged. -/
def slStep (cfg : TrailingConfig) (runner_enabled : Bool)
    (direction symbol : String) (p : Position) :
    SLEvent → PosState → PosState
  | SLEvent.trail tracked activated current_price stop_level, st =>
    let r := check_trailing_stop cfg tracked activated st.best
        { p with sl := st.sl } direction symbol current_price stop_level
    { sl := r.write.getD st.sl, best := r.best }
  | SLEvent.protectBreakeven, st =>
    let moved := breakevenMove runner_enabled direction
        { p with sl := st.sl }
    { sl := moved.1.sl, best := st.best }

/-- The sequence of stop-loss values a position goes through under a
sequence of supervision events. -/
def slTrace (cfg : TrailingConfig) (runner_enabled : Bool)
    (direction symbol : String) (p : Position) (st₀ : PosState)
    (evs : List SLEvent) : List ℚ :=
  (evs.scanl (fun st e =>
    slStep cfg runner_enabled direction symbol p e st) st₀).map (·.sl)

/-- Positivity of the prices an event carries (market prices are positive;
vacuous for the breakeven event). -/
def eventPricePos : SLEvent → Prop
  | SLEvent.trail _ _ current_price _ => 0 < current_price
  | SLEvent.protectBreakeven => True

/-! ## Per-slot implied risk (for claim C6) -/

/-- Pip distance between a slot's entry and its resolved stop, as the
sizing calculator computes it. -/
def slotPipDistance (s : Signal) (info : SymbolInfo) (pos : ℕ) : ℚ :=
  calculate_pip_distance (slotEntry s pos) (slotSl s pos info.point)
    s.symbol

/-- The exact (unrounded) lot size of a slot: per-slot budget over
(pip distance × pip value per lot). -/
def slotUnroundedLot (s : Signal) (info : SymbolInfo)
    (risk_per_position : ℚ) (pos : ℕ) : ℚ :=
  risk_per_position /
    (slotPipDistance s info pos
      * pip_value_per_lot s.symbol info.trade_contract_size)

/-- The slot's lot size after rounding to the venue's volume step (the
value `_calculate_lot_size` returns when neither clamp binds). -/
def slotSteppedLot (s : Signal) (info : SymbolInfo)
    (risk_per_position : ℚ) (pos : ℕ) : ℚ :=
  (pyRound (slotUnroundedLot s info risk_per_position pos
      / info.volume_step) : ℚ) * info.volume_step

/-! ## Concrete fixtures used by witnesses and counterexamples -/

/-- The repository's own test signal (`risk_manager.main`), with integer
levels where exact values are convenient. -/
def sigGold : Signal :=
  { direction := "BUY", symbol := "XAUUSD", entry_upper := 2650,
    entry_middle := 2649, entry_lower := 2648, sl1 := some 2645,
    tp1 := some 2655, tp2 := some 2660 }

/-- A signal agreeing with `sigGold` on direction, entry bounds, tp1 and
tp2, but on another instrument with different middle entry and stops. -/
def sigBtcTwin : Signal :=
  { direction := "BUY", symbol := "BTCUSD", entry_upper := 2650,
    entry_middle := 2600, entry_lower := 2648, sl1 := some 2400,
    sl2 := some 2350, tp1 := some 2655, tp2 := some 2660,
    tp3 := some 2700 }

/-- A BUY XAUUSD signal whose three slots all have a 5.50 stop distance
(550 pips at the 0.01 pip size). -/
def sigC6 : Signal :=
  { direction := "BUY", symbol := "XAUUSD", entry_upper := 2650.5,
    entry_middle := 2649.35, entry_lower := 2648.2, sl1 := some 2645,
    sl2 := some 2643.85, sl3 := some 2642.7, tp1 := some 2655,
    tp2 := some 2660 }

/-- Venue data for XAUUSD with a tight `volume_max` of 1 lot: large
accounts hit the clamp. -/
def infoC6 : SymbolInfo :=
  { point := 1/100, trade_contract_size := 100, volume_min := 1/100,
    volume_max := 1, volume_step := 1/100 }

/-- The same venue data with a roomy `volume_max`: no clamp binds. -/
def infoC6w : SymbolInfo :=
  { point := 1/100, trade_contract_size := 100, volume_min := 1/100,
    volume_max := 1000, volume_step := 1/100 }

/-- A SELL signal with zone `[10, 20]`, middle `15` (integer levels keep
the concrete evaluations easy). -/
def sigSellCx : Signal :=
  { direction := "SELL", symbol := "EURUSD", entry_upper := 20,
    entry_middle := 15, entry_lower := 10, sl1 := some 25,
    tp1 := some 8, tp2 := some 5 }

/-- The order request `place_order` builds for slot 2 of `sigSellCx` when
the bid is 5 — strictly below the entry zone, yet a MARKET order. -/
def reqSellCx : OrderRequest :=
  { action := TradeAction.deal, symbol := "EURUSD", volume := 1,
    typ := MT5OrderType.sell, price := 5, sl := some 25, tp := some 5,
    comment := "sid_pos2" }

/-- A protection-controller state for signal `"sid"` (one pending slot-2
order, one open slot-1 position, tracker entry present, ledger active). -/
def protSt0 : ProtectionState :=
  { venue := { pending := [⟨1, "XAUUSD", 2649, "sid_pos2"⟩],
               positions := [⟨2, "XAUUSD", 2650, 2645, 2655, "sid_pos1"⟩] },
    protected_signals := fun _ => false,
    protection_timestamps := fun _ => none,
    db := [⟨"sid", "active", 0⟩],
    tracker_signals := [⟨"sid", sigGold, [(2, 1)]⟩] }

end MT5

example : MT5.containsSub "XAU" "XAUUSD" = true := by decide
example : MT5.containsSub "BTC" "XAUUSD" = false := by decide
example : MT5.calculate_pip_distance 2650.50 2645.00 "XAUUSD" = 550 := by
  unfold MT5.calculate_pip_distance
  rw [if_pos (by decide : (MT5.containsSub "XAU" "XAUUSD"
        || MT5.containsSub "GOLD" "XAUUSD") = true)]
  rw [show |(2650.50 : ℚ) - 2645.00| = 11/2 by norm_num [abs_of_nonneg]]
  norm_num
example : MT5.pyRound (5/2) = 2 := by unfold MT5.pyRound; norm_num
example : MT5.pyRound (7/2) = 4 := by
  unfold MT5.pyRound; norm_num [Int.even_iff]
example : MT5.pyRound (11/10) = 1 := by unfold MT5.pyRound; norm_num

namespace MT5

/-- C1: For every incoming signal whose fingerprint has ledger status
`tp2_hit` or `completed` at processing time — status read from the
persistent signal database, hence surviving restarts and independent of
the in-session protection set and tracker state — `process_signal` returns
without placing any order, without registering the signal for tracking and
without writing the signal to the database. -/
theorem process_signal_drops_tp2_hit_or_completed
    (env : ProcEnv) (s : Signal) (st : ProcState)
    (h : check_signal_status (generate_signal_id env.md5hex s) st.db
           = some "tp2_hit"
       ∨ check_signal_status (generate_signal_id env.md5hex s) st.db
           = some "completed") :
    process_signal env s st = ⟨st, 0, 0⟩ := by
  unfold process_signal
  rw [if_pos h]

/-- Witness for C1: a concrete signal whose ledger record says `tp2_hit`
is dropped with no side effects. -/
theorem process_signal_drops_tp2_hit_or_completed_witness :
    (check_signal_status
        (generate_signal_id (fun x => x) sigGold)
        [⟨"BUY_2650_264", "tp2_hit", 0⟩] = some "tp2_hit"
      ∨ check_signal_status
        (generate_signal_id (fun x => x) sigGold)
        [⟨"BUY_2650_264", "tp2_hit", 0⟩] = some "completed") ∧
    process_signal
      { md5hex := fun x => x, now := 5,
        protected_signals := fun _ => false, opposite_open := false,
        balance := 10000, risk_percent := 1, num_positions := 3,
        symbol_info := ⟨1/100, 100, 1/100, 100, 1/100⟩,
        validate_ok := true, place_ticket := fun _ => none }
      sigGold ⟨[⟨"BUY_2650_264", "tp2_hit", 0⟩], []⟩
      = ⟨⟨[⟨"BUY_2650_264", "tp2_hit", 0⟩], []⟩, 0, 0⟩ :=
  ⟨Or.inl (by decide),
   process_signal_drops_tp2_hit_or_completed _ _ _ (Or.inl (by decide))⟩

/-- C10: the signal fingerprint depends only on direction, entry_upper,
entry_lower, tp1 and tp2: two signals agreeing on those five fields get the
same signal id, whatever their symbol, entry_middle, stop levels or tp3. -/
theorem generate_signal_id_depends_only_on_key_fields
    (md5hex : String → String) (s₁ s₂ : Signal)
    (hdir : s₁.direction = s₂.direction)
    (hup : s₁.entry_upper = s₂.entry_upper)
    (hlo : s₁.entry_lower = s₂.entry_lower)
    (htp1 : s₁.tp1 = s₂.tp1) (htp2 : s₁.tp2 = s₂.tp2) :
    generate_signal_id md5hex s₁ = generate_signal_id md5hex s₂ := by
  unfold generate_signal_id signalKeyString
  rw [hdir, hup, hlo, htp1, htp2]

/-- Witness for C10: `sigGold` (XAUUSD) and `sigBtcTwin` (BTCUSD) differ
in symbol, entry_middle, every stop level and tp3, yet get the same id. -/
theorem generate_signal_id_depends_only_on_key_fields_witness :
    sigGold.direction = sigBtcTwin.direction ∧
    sigGold.entry_upper = sigBtcTwin.entry_upper ∧
    sigGold.entry_lower = sigBtcTwin.entry_lower ∧
    sigGold.tp1 = sigBtcTwin.tp1 ∧ sigGold.tp2 = sigBtcTwin.tp2 ∧
    sigGold.symbol ≠ sigBtcTwin.symbol ∧
    sigGold.entry_middle ≠ sigBtcTwin.entry_middle ∧
    sigGold.sl1 ≠ sigBtcTwin.sl1 ∧
    generate_signal_id (fun x => x) sigGold
      = generate_signal_id (fun x => x) sigBtcTwin :=
  ⟨rfl, rfl, rfl, rfl, rfl, by decide, by decide, by decide,
   generate_signal_id_depends_only_on_key_fields (fun x => x) sigGold
     sigBtcTwin rfl rfl rfl rfl rfl⟩

/-- Counterexample for C7: the claim that a fingerprint whose stored status
is `tp2_hit`/`completed` can never be reverted by the status-update
operation is false — `update_signal_status` carries no forward-only guard,
so a call with `'active'` reverts a `tp2_hit` record. -/
theorem update_signal_status_reverts_status_cx :
    check_signal_status "a" [⟨"a", "tp2_hit", 0⟩] = some "tp2_hit" ∧
    check_signal_status "a"
      (update_signal_status "a" "active" 1 [⟨"a", "tp2_hit", 0⟩]).2
      = some "active" := by
  constructor <;> decide

/-- C7 as amended: `update_signal_status` is last-write-wins with no
forward-only guard: whenever any record with the fingerprint exists, the
call sets the stored status to exactly the supplied value — including
moves backwards such as `tp2_hit → active`. -/
theorem update_signal_status_last_write_wins
    (db : List SignalRecord) (id status : String) (now : ℕ)
    (h : ∃ r ∈ db, r.signal_id = id) :
    check_signal_status id (update_signal_status id status now db).2
      = some status := by
  have hany : db.any (fun r => r.signal_id == id) = true := by
    obtain ⟨r, hr, hid⟩ := h
    exact List.any_eq_true.2 ⟨r, hr, by simp [hid]⟩
  unfold update_signal_status
  rw [if_pos hany]
  unfold check_signal_status get_signal_by_id
  rw [← List.map_reverse]
  have hrev : ∃ r ∈ db.reverse, r.signal_id = id := by
    obtain ⟨r, hr, hid⟩ := h
    exact ⟨r, List.mem_reverse.2 hr, hid⟩
  generalize db.reverse = l at hrev
  induction l with
  | nil => simp at hrev
  | cons r rest ih =>
    obtain ⟨r', hr', hid⟩ := hrev
    by_cases hr : r.signal_id = id
    · simp [List.find?_cons, hr]
    · have hrest : ∃ x ∈ rest, x.signal_id = id := by
        rcases List.mem_cons.1 hr' with h1 | h1
        · exact absurd (h1 ▸ hid) hr
        · exact ⟨r', h1, hid⟩
      simpa [List.find?_cons, hr] using ih hrest

/-- Witness for C7's amended theorem: a `tp2_hit` record is overwritten to
the supplied status. -/
theorem update_signal_status_last_write_wins_witness :
    (∃ r ∈ [(⟨"a", "tp2_hit", 0⟩ : SignalRecord)], r.signal_id = "a") ∧
    check_signal_status "a"
      (update_signal_status "a" "cancelled" 7 [⟨"a", "tp2_hit", 0⟩]).2
      = some "cancelled" :=
  ⟨⟨⟨"a", "tp2_hit", 0⟩, by simp, rfl⟩,
   update_signal_status_last_write_wins _ _ _ 7
     ⟨⟨"a", "tp2_hit", 0⟩, by simp, rfl⟩⟩

end MT5

namespace MT5

/-- Counterexample for C9: the sizing path's pip conversion does NOT give
crypto-style symbols a 0.01 pip: `BTCUSD` contains `BTC`, yet
`calculate_pip_distance` classifies it with the 0.0001 default (a 1.00
price move counts as 10000 pips, not the 100 the claim requires), and the
per-lot pip value likewise uses `contract_size * 0.0001`. -/
theorem calculate_pip_distance_btc_cx :
    containsSub "BTC" "BTCUSD" = true ∧
    calculate_pip_distance 100 101 "BTCUSD" = 10000 ∧
    ((10000 : ℚ) = |(100 : ℚ) - 101| / (1/100)) = False ∧
    pip_value_per_lot "BTCUSD" 1 = 1/10000 := by
  refine ⟨by decide, ?_, ?_, ?_⟩
  · unfold calculate_pip_distance
    rw [if_neg (by decide :
          ¬ (containsSub "XAU" "BTCUSD" || containsSub "GOLD" "BTCUSD")
            = true),
        if_neg (by decide : ¬ containsSub "JPY" "BTCUSD" = true)]
    rw [show |(100 : ℚ) - 101| = 1 by norm_num [abs_of_nonpos]]
    norm_num
  · simp only [eq_iff_iff, iff_false]
    intro hc
    rw [show |(100 : ℚ) - 101| = 1 by norm_num [abs_of_nonpos]] at hc
    norm_num at hc
  · unfold pip_value_per_lot
    rw [if_neg (by decide :
          ¬ (containsSub "XAU" "BTCUSD" || containsSub "GOLD" "BTCUSD")
            = true),
        if_neg (by decide : ¬ containsSub "JPY" "BTCUSD" = true)]
    norm_num

/-- C9 as amended: the sizing-path pip classification is: symbols
containing XAU or GOLD use a 0.01 price increment per pip, JPY symbols
(without XAU/GOLD) use 0.01, and every other symbol — including BTC/crypto
symbols, which the sizing path does not special-case — uses 0.0001; the
per-lot pip value follows the same classification. -/
theorem pip_classification_amended
    (p₁ p₂ contract_size : ℚ) (symbol : String) :
    ((containsSub "XAU" symbol || containsSub "GOLD" symbol) = true →
      calculate_pip_distance p₁ p₂ symbol = |p₁ - p₂| / (1/100) ∧
      pip_value_per_lot symbol contract_size = contract_size * (1/100)) ∧
    ((containsSub "XAU" symbol || containsSub "GOLD" symbol) = false →
      containsSub "JPY" symbol = true →
      calculate_pip_distance p₁ p₂ symbol = |p₁ - p₂| / (1/100) ∧
      pip_value_per_lot symbol contract_size = contract_size * (1/100)) ∧
    ((containsSub "XAU" symbol || containsSub "GOLD" symbol) = false →
      containsSub "JPY" symbol = false →
      calculate_pip_distance p₁ p₂ symbol = |p₁ - p₂| / (1/10000) ∧
      pip_value_per_lot symbol contract_size
        = contract_size * (1/10000)) := by
  refine ⟨fun h => ?_, fun h₁ h₂ => ?_, fun h₁ h₂ => ?_⟩ <;>
    unfold calculate_pip_distance pip_value_per_lot <;>
    simp [*]

/-- Witness for C9's amended theorem: `BTCUSD` falls in the 0.0001 class. -/
theorem pip_classification_amended_witness :
    calculate_pip_distance 100 101 "BTCUSD" = |(100 : ℚ) - 101| / (1/10000)
      ∧ pip_value_per_lot "BTCUSD" 1 = 1 * (1/10000) :=
  (pip_classification_amended 100 101 1 "BTCUSD").2.2 (by decide) (by decide)

end MT5

namespace MT5

/-- Evaluation of `place_order` on the C5 counterexample input: a SELL
signal with zone `[10, 20]` and a bid of 5 — strictly outside the zone —
still produces a MARKET order for slot 2, because the slot-2 branch
(`current_bid < entry_middle`) is tested without any in-zone check. -/
theorem place_order_sellcx_eval :
    place_order sigSellCx 2 1 "sid" "TP1" true (some 5) (some 5)
      = some (reqSellCx, [VenueCall.orderSend reqSellCx]) := by
  have hslot : slotParams sigSellCx 2 "TP1" true
      = some (15, some 25, some 5) := by
    simp [slotParams, sigSellCx]
  unfold place_order
  rw [hslot]
  simp only [Option.getD]
  rw [if_pos (by simp [sigSellCx] : sigSellCx.direction = "SELL")]
  have hkind : orderKindSell 2 5 sigSellCx.entry_lower sigSellCx.entry_upper
      sigSellCx.entry_middle 15
      = (TradeAction.deal, MT5OrderType.sell, 5) := by
    unfold orderKindSell
    rw [if_neg, if_neg, if_pos]
    · exact ⟨rfl, by simp [sigSellCx]; norm_num⟩
    · simp
    · simp [sigSellCx]
      rw [show |(5 : ℚ) - 20| = 15 by norm_num [abs_sub_comm]]
      norm_num
  rw [hkind]
  simp [reqSellCx, pyTruthy, sigSellCx]
  decide

end MT5

namespace MT5

/-- Counterexample for C5: the staged-entry rule as specified is false on
the code.  With the SELL signal `sigSellCx` (zone `[10, 20]`) and a bid of
5 — strictly outside the zone, where the claim requires every slot to rest
— `place_order` places slot 2 as an immediate MARKET order, because the
slot-2 rule `current_bid < entry_middle` is applied without any in-zone
check.  (For BUY the claim also fails: inside the zone only slot 1 ever
becomes a market order; and a SELL bid within 1.0 of `entry_upper`
market-executes every slot even when strictly outside the zone.) -/
theorem staged_entry_claim_cx : ¬ stagedEntrySpecClaim := by
  intro h
  have hslot : slotParams sigSellCx 2 "TP1" true
      = some (15, some 25, some 5) := by
    simp [slotParams, sigSellCx]
  have hout := (h sigSellCx 2 1 "sid" "TP1" true 5 5 reqSellCx
      [VenueCall.orderSend reqSellCx] 15 (some 25) (some 5) hslot
      place_order_sellcx_eval).1
  have hact : reqSellCx.action = TradeAction.pending :=
    (hout (by simp [sigSellCx]; norm_num)).1
  simp [reqSellCx] at hact

/-- C5 as amended, the order-kind rule the code implements.
BUY (decided on the ask): when the ask is strictly outside the zone every
slot rests at its intended price; when it is inside, slot 1 is an
immediate market order and slots 2 and 3 still rest.
SELL (decided on the bid): when the bid is within 1.0 of `entry_upper`
every slot is an immediate market order (even strictly outside the zone);
otherwise slot 1 is immediate exactly when the bid is inside the zone,
slot 2 is immediate exactly when the bid is below `entry_middle` (even
outside the zone), and every other slot rests at its intended price. -/
theorem order_kind_decision_amended :
    (∀ (pos : ℕ) (ask lo hi entry : ℚ), ask < lo ∨ hi < ask →
      orderKindBuy pos ask lo hi entry
        = (TradeAction.pending, MT5OrderType.buyLimit, entry)) ∧
    (∀ (ask lo hi entry : ℚ), lo ≤ ask → ask ≤ hi →
      orderKindBuy 1 ask lo hi entry
        = (TradeAction.deal, MT5OrderType.buy, ask)) ∧
    (∀ (pos : ℕ) (ask lo hi entry : ℚ), pos ≠ 1 →
      orderKindBuy pos ask lo hi entry
        = (TradeAction.pending, MT5OrderType.buyLimit, entry)) ∧
    (∀ (pos : ℕ) (bid lo hi mid entry : ℚ), |bid - hi| < 1 →
      orderKindSell pos bid lo hi mid entry
        = (TradeAction.deal, MT5OrderType.sell, bid)) ∧
    (∀ (bid lo hi mid entry : ℚ), 1 ≤ |bid - hi| → lo ≤ bid → bid ≤ hi →
      orderKindSell 1 bid lo hi mid entry
        = (TradeAction.deal, MT5OrderType.sell, bid)) ∧
    (∀ (bid lo hi mid entry : ℚ), 1 ≤ |bid - hi| → bid < mid →
      orderKindSell 2 bid lo hi mid entry
        = (TradeAction.deal, MT5OrderType.sell, bid)) ∧
    (∀ (pos : ℕ) (bid lo hi mid entry : ℚ), 1 ≤ |bid - hi| →
      ¬(pos = 1 ∧ lo ≤ bid ∧ bid ≤ hi) → ¬(pos = 2 ∧ bid < mid) →
      orderKindSell pos bid lo hi mid entry
        = (TradeAction.pending, MT5OrderType.sellLimit, entry)) := by
  refine ⟨?_, ?_, ?_, ?_, ?_, ?_, ?_⟩
  · intro pos ask lo hi entry h
    unfold orderKindBuy
    rw [if_neg]
    rintro ⟨-, h1, h2⟩
    rcases h with h | h <;> linarith
  · intro ask lo hi entry h1 h2
    unfold orderKindBuy
    rw [if_pos ⟨rfl, h1, h2⟩]
  · intro pos ask lo hi entry hpos
    unfold orderKindBuy
    rw [if_neg (fun hc => hpos hc.1)]
  · intro pos bid lo hi mid entry h
    unfold orderKindSell
    rw [if_pos h]
  · intro bid lo hi mid entry h h1 h2
    unfold orderKindSell
    rw [if_neg (by linarith), if_pos ⟨rfl, h1, h2⟩]
  · intro bid lo hi mid entry h hmid
    unfold orderKindSell
    rw [if_neg (by linarith)]
    by_cases hz : (2 : ℕ) = 1 ∧ lo ≤ bid ∧ bid ≤ hi
    · rw [if_pos hz]
    · rw [if_neg hz, if_pos ⟨rfl, hmid⟩]
  · intro pos bid lo hi mid entry h h1 h2
    unfold orderKindSell
    rw [if_neg (by linarith), if_neg h1, if_neg h2]

/-- Witness for C5's amended theorem: slot 2 of a BUY signal rests even
with the ask inside the zone, and a SELL bid below the zone but below the
middle makes slot 2 immediate. -/
theorem order_kind_decision_amended_witness :
    orderKindBuy 2 15 10 20 15
      = (TradeAction.pending, MT5OrderType.buyLimit, 15) ∧
    orderKindSell 2 5 10 20 15 15
      = (TradeAction.deal, MT5OrderType.sell, 5) :=
  ⟨order_kind_decision_amended.2.2.1 2 15 10 20 15 (by norm_num),
   order_kind_decision_amended.2.2.2.2.2.1 5 10 20 15 15
     (by rw [show |(5:ℚ) - 20| = 15 by norm_num [abs_sub_comm]]; norm_num)
     (by norm_num)⟩

end MT5

namespace MT5

/-- C8: every placement carries the slot's stop-loss and take-profit inside
the single `order_send` request that opens the order — the venue-call
trace of `place_order` is exactly one `orderSend` whose `sl`/`tp` fields
are the slot's levels (omitted only when Python-falsy, i.e. absent or 0.0),
and no separate stop/target modification call is ever issued within the
placement routine. -/
theorem place_order_sl_tp_atomic (s : Signal) (pos : ℕ) (lot : ℚ)
    (sid p1tp : String) (runner : Bool) (ask bid : Option ℚ)
    (req : OrderRequest) (trace : List VenueCall) (entry : ℚ)
    (sl tp : Option ℚ)
    (hslot : slotParams s pos p1tp runner = some (entry, sl, tp))
    (hplace : place_order s pos lot sid p1tp runner ask bid
      = some (req, trace)) :
    trace = [VenueCall.orderSend req] ∧
    (∀ (t : ℕ) (sl' tp' : Option ℚ),
        VenueCall.modifySLTP t sl' tp' ∉ trace) ∧
    (pyTruthy sl = true → req.sl = sl) ∧
    (pyTruthy sl = false → req.sl = none) ∧
    (pyTruthy tp = true → req.tp = tp) ∧
    (pyTruthy tp = false → req.tp = none) := by
  unfold place_order at hplace
  rw [hslot] at hplace
  cases ask with
  | none => simp at hplace
  | some askPrice =>
    simp only [Option.some.injEq, Prod.mk.injEq] at hplace
    obtain ⟨hreq, htrace⟩ := hplace
    subst hreq
    refine ⟨htrace.symm ▸ rfl, ?_, ?_, ?_, ?_, ?_⟩
    · intro t sl' tp' hmem
      rw [← htrace] at hmem
      simp at hmem
    · intro h; simp [h]
    · intro h; simp [h]
    · intro h; simp [h]
    · intro h; simp [h]

/-- Witness for C8: slot 2 of `sigSellCx` gets its stop (25) and target
(5) inside the single `order_send` request. -/
theorem place_order_sl_tp_atomic_witness :
    [VenueCall.orderSend reqSellCx] = [VenueCall.orderSend reqSellCx] ∧
    (∀ (t : ℕ) (sl' tp' : Option ℚ),
        VenueCall.modifySLTP t sl' tp' ∉ [VenueCall.orderSend reqSellCx]) ∧
    (pyTruthy (some 25) = true → reqSellCx.sl = some 25) ∧
    (pyTruthy (some 25) = false → reqSellCx.sl = none) ∧
    (pyTruthy (some 5) = true → reqSellCx.tp = some 5) ∧
    (pyTruthy (some 5) = false → reqSellCx.tp = none) :=
  place_order_sl_tp_atomic sigSellCx 2 1 "sid" "TP1" true (some 5) (some 5)
    reqSellCx [VenueCall.orderSend reqSellCx] 15 (some 25) (some 5)
    (by simp [slotParams, sigSellCx]) place_order_sellcx_eval

end MT5

namespace MT5

/-- Unfolding a supervision trace by one event. -/
theorem slTrace_cons (cfg : TrailingConfig) (runner : Bool)
    (direction symbol : String) (p : Position) (st₀ : PosState)
    (e : SLEvent) (evs : List SLEvent) :
    slTrace cfg runner direction symbol p st₀ (e :: evs)
      = st₀.sl :: slTrace cfg runner direction symbol p
          (slStep cfg runner direction symbol p e st₀) evs := by
  simp [slTrace, List.scanl]

/-- A supervision trace starts at the current stop. -/
theorem slTrace_head (cfg : TrailingConfig) (runner : Bool)
    (direction symbol : String) (p : Position) (st : PosState)
    (evs : List SLEvent) :
    (slTrace cfg runner direction symbol p st evs).head? = some st.sl := by
  cases evs <;> simp [slTrace, List.scanl]

end MT5

namespace MT5

/-- The tracker's pip value is positive for every symbol. -/
theorem trackerPipValue_pos (symbol : String) :
    0 < trackerPipValue symbol := by
  unfold trackerPipValue
  split_ifs <;> norm_num

/-- Any stop value the BUY trailing poll writes is strictly above the
current stop (or the stop was unset). -/
theorem check_trailing_write_buy (cfg : TrailingConfig)
    (tracked : List (ℕ × ℕ)) (activated : ℕ → Bool)
    (best : ℕ → Option ℚ) (pos : Position) (symbol : String)
    (current_price stop_level : ℚ) (w : ℚ)
    (hw : (check_trailing_stop cfg tracked activated best pos "BUY" symbol
            current_price stop_level).write = some w) :
    pos.sl = 0 ∨ pos.sl < w := by
  unfold check_trailing_stop at hw
  simp only [reduceIte] at hw
  split_ifs at hw
  all_goals
    replace hw := Option.some.inj hw; subst hw; assumption

end MT5

namespace MT5

/-- Any stop value the SELL trailing poll writes is strictly below the
current stop (or the stop was unset), and is positive when the market
price, the configured trailing distance and the recorded best prices
are. -/
theorem check_trailing_write_sell (cfg : TrailingConfig)
    (tracked : List (ℕ × ℕ)) (activated : ℕ → Bool)
    (best : ℕ → Option ℚ) (pos : Position) (symbol : String)
    (current_price stop_level w : ℚ)
    (hp : 0 < current_price) (hpips : 0 < cfg.trailing_stop_pips)
    (hbest : ∀ b, best pos.ticket = some b → 0 < b)
    (hw : (check_trailing_stop cfg tracked activated best pos "SELL" symbol
            current_price stop_level).write = some w) :
    (pos.sl = 0 ∨ w < pos.sl) ∧ 0 < w := by
  have hpipv := trackerPipValue_pos symbol
  have hdist : 0 < cfg.trailing_stop_pips * trackerPipValue symbol :=
    mul_pos hpips hpipv
  unfold check_trailing_stop at hw
  simp only [String.reduceEq, reduceIte] at hw
  cases hb : best pos.ticket with
  | none =>
    rw [hb] at hw
    simp only [Option.getD_none] at hw
    split_ifs at hw
    all_goals
      replace hw := Option.some.inj hw; subst hw
      exact ⟨by assumption, by linarith⟩
  | some b₀ =>
    have h0 := hbest b₀ hb
    rw [hb] at hw
    simp only [Option.getD_some] at hw
    split_ifs at hw
    all_goals
      replace hw := Option.some.inj hw; subst hw
      exact ⟨by assumption, by linarith⟩

/-- Updating one key of a positive-valued best-price map with a positive
value keeps every value positive. -/
theorem ite_map_pos {k t : ℕ} {v b : ℚ} {best : ℕ → Option ℚ}
    (hv : 0 < v) (hbest : ∀ t b, best t = some b → 0 < b)
    (htb : (if t = k then some v else best t) = some b) : 0 < b := by
  split_ifs at htb
  · exact (Option.some.inj htb) ▸ hv
  · exact hbest t b htb

set_option maxHeartbeats 2000000 in
/-- One trailing poll keeps every recorded best price positive when the
market price is. -/
theorem check_trailing_best_pos (cfg : TrailingConfig)
    (tracked : List (ℕ × ℕ)) (activated : ℕ → Bool)
    (best : ℕ → Option ℚ) (pos : Position) (direction symbol : String)
    (current_price stop_level : ℚ) (hp : 0 < current_price)
    (hbest : ∀ t b, best t = some b → 0 < b) :
    ∀ t b, (check_trailing_stop cfg tracked activated best pos direction
        symbol current_price stop_level).best t = some b → 0 < b := by
  intro t b htb
  unfold check_trailing_stop at htb
  cases hb : best pos.ticket with
  | none =>
    simp only [hb, Option.getD_none] at htb
    split_ifs at htb
    all_goals
      first
        | exact hbest t b htb
        | exact ite_map_pos hp hbest htb
  | some b₀ =>
    have h0 := hbest pos.ticket b₀ hb
    simp only [hb, Option.getD_some] at htb
    split_ifs at htb
    all_goals
      first
        | exact hbest t b htb
        | exact ite_map_pos hp hbest htb
        | exact ite_map_pos h0 hbest htb

end MT5

namespace MT5

/-- One BUY supervision step (trailing poll or protection breakeven) never
lowers a set (positive) stop, and keeps it positive. -/
theorem slStep_buy_mono (cfg : TrailingConfig) (runner : Bool)
    (symbol : String) (p : Position) (e : SLEvent) (st : PosState)
    (h : 0 < st.sl) :
    st.sl ≤ (slStep cfg runner "BUY" symbol p e st).sl ∧
    0 < (slStep cfg runner "BUY" symbol p e st).sl := by
  cases e with
  | trail tracked activated price stopl =>
    simp only [slStep]
    cases hw : (check_trailing_stop cfg tracked activated st.best
        { p with sl := st.sl } "BUY" symbol price stopl).write with
    | none => simp only [Option.getD_none]; exact ⟨le_rfl, h⟩
    | some w =>
      have hfav := check_trailing_write_buy cfg tracked activated st.best
        { p with sl := st.sl } symbol price stopl w hw
      simp only at hfav
      simp only [Option.getD_some]
      rcases hfav with h0 | hlt
      · exact absurd h0 (by linarith)
      · exact ⟨le_of_lt hlt, lt_trans h hlt⟩
  | protectBreakeven =>
    simp only [slStep]
    unfold breakevenMove
    simp only [String.reduceEq, reduceIte]
    split_ifs with h1 h2
    · exact ⟨le_rfl, h⟩
    · rcases h2 with h0 | hlt
      · exact absurd h0 (by linarith)
      · exact ⟨by linarith, by linarith⟩
    · exact ⟨le_rfl, h⟩

/-- One SELL supervision step never raises a set (positive) stop, keeps it
positive, and keeps the best-price map positive (given a positive market
price, trailing distance and open price above the 0.1 breakeven buffer). -/
theorem slStep_sell_mono (cfg : TrailingConfig) (runner : Bool)
    (symbol : String) (p : Position) (e : SLEvent) (st : PosState)
    (h : 0 < st.sl) (hpips : 0 < cfg.trailing_stop_pips)
    (hopen : 1/10 < p.open_price) (hev : eventPricePos e)
    (hbest : ∀ t b, st.best t = some b → 0 < b) :
    (slStep cfg runner "SELL" symbol p e st).sl ≤ st.sl ∧
    0 < (slStep cfg runner "SELL" symbol p e st).sl ∧
    (∀ t b, (slStep cfg runner "SELL" symbol p e st).best t = some b →
      0 < b) := by
  cases e with
  | trail tracked activated price stopl =>
    have hp : 0 < price := hev
    have hbp := check_trailing_best_pos cfg tracked activated st.best
      { p with sl := st.sl } "SELL" symbol price stopl hp hbest
    simp only [slStep]
    cases hw : (check_trailing_stop cfg tracked activated st.best
        { p with sl := st.sl } "SELL" symbol price stopl).write with
    | none => simp only [Option.getD_none]; exact ⟨le_rfl, h, hbp⟩
    | some w =>
      have hfav := check_trailing_write_sell cfg tracked activated st.best
        { p with sl := st.sl } symbol price stopl w hp hpips
        (fun b hb => hbest _ b hb) hw
      simp only at hfav
      simp only [Option.getD_some]
      rcases hfav with ⟨h0 | hlt, hwpos⟩
      · exact absurd h0 (by linarith)
      · exact ⟨le_of_lt hlt, hwpos, hbp⟩
  | protectBreakeven =>
    simp only [slStep]
    unfold breakevenMove
    simp only [String.reduceEq, reduceIte]
    split_ifs with h1 h2
    · exact ⟨le_rfl, h, hbest⟩
    · rcases h2 with h0 | hlt
      · exact absurd h0 (by linarith)
      · exact ⟨by linarith, by linarith, hbest⟩
    · exact ⟨le_rfl, h, hbest⟩

end MT5

namespace MT5

/-- C3: once a position's stop is set (positive), the sequence of stop-loss
values produced by any interleaving of trailing-supervision polls
(`PositionTracker._check_trailing_stop`) and protection-breakeven attempts
(`TP2Protection._move_positions_to_breakeven`) is non-decreasing over time
for a BUY position and non-increasing for a SELL position — every
modification path first checks that the candidate stop is more favorable
than the current one.  (For SELL the prices carried by the events, the
configured trailing distance and the open price are positive, as market
data is.) -/
theorem stop_loss_trace_monotone :
    (∀ (cfg : TrailingConfig) (runner : Bool) (symbol : String)
       (p : Position) (st₀ : PosState) (evs : List SLEvent),
       0 < st₀.sl →
       (slTrace cfg runner "BUY" symbol p st₀ evs).Chain' (· ≤ ·)) ∧
    (∀ (cfg : TrailingConfig) (runner : Bool) (symbol : String)
       (p : Position) (st₀ : PosState) (evs : List SLEvent),
       0 < st₀.sl → 0 < cfg.trailing_stop_pips →
       1/10 < p.open_price → (∀ e ∈ evs, eventPricePos e) →
       (∀ t b, st₀.best t = some b → 0 < b) →
       (slTrace cfg runner "SELL" symbol p st₀ evs).Chain' (· ≥ ·)) := by
  constructor
  · intro cfg runner symbol p st₀ evs
    induction evs generalizing st₀ with
    | nil => intro h; simp [slTrace]
    | cons e evs ih =>
      intro h
      rw [slTrace_cons, List.chain'_cons']
      obtain ⟨hle, hpos⟩ := slStep_buy_mono cfg runner symbol p e st₀ h
      refine ⟨?_, ih _ hpos⟩
      intro y hy
      rw [slTrace_head] at hy
      simp only [Option.mem_def, Option.some.injEq] at hy
      exact hy ▸ hle
  · intro cfg runner symbol p st₀ evs
    induction evs generalizing st₀ with
    | nil => intro h _ _ _ _; simp [slTrace]
    | cons e evs ih =>
      intro h hpips hopen hev hbest
      rw [slTrace_cons, List.chain'_cons']
      obtain ⟨hle, hpos, hbest'⟩ := slStep_sell_mono cfg runner symbol p e
        st₀ h hpips hopen (hev e (List.mem_cons_self e evs)) hbest
      refine ⟨?_, ih _ hpos hpips hopen
        (fun e' he' => hev e' (List.mem_cons_of_mem e he')) hbest'⟩
      intro y hy
      rw [slTrace_head] at hy
      simp only [Option.mem_def, Option.some.injEq] at hy
      exact hy ▸ hle

/-- Witness for C3: concrete BUY and SELL traces (a trailing poll followed
by a protection-breakeven attempt) are monotone from a set stop. -/
theorem stop_loss_trace_monotone_witness :
    (slTrace ⟨20, 10, true, true⟩ true "BUY" "XAUUSD"
        ⟨7, "XAUUSD", 2650, 2645, 0, "sid_pos1"⟩ ⟨2645, fun _ => none⟩
        [SLEvent.trail [] (fun _ => false) 2655 0,
         SLEvent.protectBreakeven]).Chain' (· ≤ ·) ∧
    (slTrace ⟨20, 10, true, true⟩ true "SELL" "XAUUSD"
        ⟨7, "XAUUSD", 2650, 2655, 0, "sid_pos1"⟩ ⟨2655, fun _ => none⟩
        [SLEvent.trail [] (fun _ => false) 2645 0,
         SLEvent.protectBreakeven]).Chain' (· ≥ ·) :=
  ⟨stop_loss_trace_monotone.1 _ _ _ _ _ _ (by norm_num),
   stop_loss_trace_monotone.2 _ _ _ _ _ _ (by norm_num) (by norm_num)
     (by norm_num)
     (by intro e he
         simp only [List.mem_cons, List.mem_singleton] at he
         rcases he with rfl | rfl | h
         · exact (by norm_num : (0:ℚ) < 2645)
         · trivial
         · simp at h)
     (by intro t b hb; simp at hb)⟩

end MT5

namespace MT5

/-- `activate_position_3_trailing`'s loop skips every position that does
not resolve to slot 3. -/
theorem activateLoop_skips_non_runners (cfg : TrailingConfig)
    (tracked : List (ℕ × ℕ)) (tp2r : String → Bool)
    (best : ℕ → Option ℚ) (activated : ℕ → Bool)
    (symbol direction : String) (tp2 : ℚ) (cp : Option ℚ)
    (l₁ rest : List Position)
    (h : ∀ q ∈ l₁, ¬ get_position_num tracked q.ticket q.comment = some 3) :
    activateLoop cfg tracked tp2r best activated symbol direction tp2 cp
        (l₁ ++ rest)
      = activateLoop cfg tracked tp2r best activated symbol direction tp2 cp
        rest := by
  induction l₁ with
  | nil => rfl
  | cons q l ih =>
    rw [List.cons_append]
    simp only [activateLoop]
    rw [if_pos (h q (List.mem_cons_self q l))]
    exact ih (fun q' hq' => h q' (List.mem_cons_of_mem q hq'))

/-- C4: (1) before arming (runner mode on, slot 3, not in the activation
set) the trailing poll issues no stop modification and leaves the
best-price map untouched; (2) arming anchors the runner's stop at exactly
`tp2 - trailing distance` for BUY / `tp2 + trailing distance` for SELL,
adds the ticket to the activation set and marks TP2 reached; (3)/(4) after
arming, any stop the trailing poll writes obeys the ordinary ratchet
(strictly more favorable than the current stop); (5) the arming check
fires only when TP2 is confirmed — live touch or the trade-history
fallback — otherwise all tracker state is unchanged. -/
theorem runner_armed_only_after_tp2 :
    (∀ (cfg : TrailingConfig) (tracked : List (ℕ × ℕ))
       (activated : ℕ → Bool) (best : ℕ → Option ℚ) (p : Position)
       (direction symbol : String) (price stopl : ℚ),
      cfg.position_3_runner_enabled = true →
      cfg.position_3_trailing_after_tp2 = true →
      get_position_num tracked p.ticket p.comment = some 3 →
      activated p.ticket = false →
      check_trailing_stop cfg tracked activated best p direction symbol
        price stopl = ⟨best, none⟩) ∧
    (∀ (cfg : TrailingConfig) (tracked : List (ℕ × ℕ))
       (tp2r : String → Bool) (best : ℕ → Option ℚ)
       (activated : ℕ → Bool) (sid : String) (s : Signal) (tp2 : ℚ)
       (cp : Option ℚ) (lookup : Option Signal)
       (l₁ l₂ : List Position) (p : Position),
      s.tp2 = some tp2 → ¬ tp2 = 0 → ¬ s.direction = "" →
      (∀ q ∈ l₁, ¬ get_position_num tracked q.ticket q.comment = some 3) →
      get_position_num tracked p.ticket p.comment = some 3 →
      activated p.ticket = false →
      (activate_position_3_trailing cfg tracked tp2r best activated sid
          (some s) lookup (l₁ ++ p :: l₂) cp).write
          = some (p.ticket,
              if s.direction = "BUY" then
                tp2 - cfg.trailing_stop_pips * trackerPipValue s.symbol
              else
                tp2 + cfg.trailing_stop_pips * trackerPipValue s.symbol) ∧
      (activate_position_3_trailing cfg tracked tp2r best activated sid
          (some s) lookup (l₁ ++ p :: l₂) cp).activated p.ticket = true ∧
      (activate_position_3_trailing cfg tracked tp2r best activated sid
          (some s) lookup (l₁ ++ p :: l₂) cp).ok = true ∧
      (activate_position_3_trailing cfg tracked tp2r best activated sid
          (some s) lookup (l₁ ++ p :: l₂) cp).tp2_reached_signals sid
          = true) ∧
    (∀ (cfg : TrailingConfig) (tracked : List (ℕ × ℕ))
       (activated : ℕ → Bool) (best : ℕ → Option ℚ) (p : Position)
       (symbol : String) (price stopl w : ℚ),
      (check_trailing_stop cfg tracked activated best p "BUY" symbol price
          stopl).write = some w →
      p.sl = 0 ∨ p.sl < w) ∧
    (∀ (cfg : TrailingConfig) (tracked : List (ℕ × ℕ))
       (activated : ℕ → Bool) (best : ℕ → Option ℚ) (p : Position)
       (symbol : String) (price stopl w : ℚ),
      0 < price → 0 < cfg.trailing_stop_pips →
      (∀ b, best p.ticket = some b → 0 < b) →
      (check_trailing_stop cfg tracked activated best p "SELL" symbol price
          stopl).write = some w →
      p.sl = 0 ∨ w < p.sl) ∧
    (∀ (cfg : TrailingConfig) (tracked : List (ℕ × ℕ))
       (tp2r : String → Bool) (best : ℕ → Option ℚ)
       (activated : ℕ → Bool) (sid : String) (s : Signal) (tp2 cp : ℚ)
       (hist : Bool) (positions : List Position),
      s.tp2 = some tp2 →
      (s.direction = "BUY" → ¬ tp2 ≤ cp) →
      (¬ s.direction = "BUY" → ¬ cp ≤ tp2) →
      hist = false →
      check_tp2_reached cfg tracked tp2r best activated sid s cp hist
        positions = ⟨tp2r, best, activated, none, false⟩) := by
  refine ⟨?_, ?_, ?_, ?_, ?_⟩
  · intro cfg tracked activated best p direction symbol price stopl
      hrun hafter hpos3 hact
    unfold check_trailing_stop
    simp [hrun, hafter, hpos3, hact]
  · intro cfg tracked tp2r best activated sid s tp2 cp lookup l₁ l₂ p
      htp2 h0 hdir hskip hpos3 hact
    unfold activate_position_3_trailing
    simp only [show ((some s).orElse fun _ => lookup) = some s from rfl,
      htp2]
    rw [if_neg (by simp [h0, hdir]), if_neg (by simp)]
    rw [activateLoop_skips_non_runners cfg tracked _ best activated
      s.symbol s.direction tp2 cp l₁ (p :: l₂) hskip]
    simp only [activateLoop]
    rw [if_neg (by simp [hpos3]), if_neg (by simp [hact])]
    refine ⟨rfl, by simp, rfl, by simp⟩
  · intro cfg tracked activated best p symbol price stopl w hw
    exact check_trailing_write_buy cfg tracked activated best p symbol
      price stopl w hw
  · intro cfg tracked activated best p symbol price stopl w hp hpips
      hb hw
    exact (check_trailing_write_sell cfg tracked activated best p symbol
      price stopl w hp hpips hb hw).1
  · intro cfg tracked tp2r best activated sid s tp2 cp hist positions
      htp2 hbuy hsell hhist
    unfold check_tp2_reached
    simp only [htp2]
    subst hhist
    by_cases h0 : tp2 = 0
    · rw [if_pos h0]
    · rw [if_neg h0, if_neg]
      simp only [Bool.false_eq_true, or_false]
      by_cases hd : s.direction = "BUY"
      · simp only [hd, reduceIte]
        exact hbuy hd
      · rw [if_neg hd]
        exact hsell hd

end MT5

namespace MT5

/-- Concrete BUY trailing poll that writes: EURUSD position (ticket 7,
open 100, stop 1), price 102 → stop written at `102 - 20·0.0001`. -/
theorem check_trailing_buy_eval :
    (check_trailing_stop ⟨20, 10, false, false⟩ [] (fun _ => false)
      (fun _ => none) ⟨7, "EURUSD", 100, 1, 0, ""⟩ "BUY" "EURUSD" 102
      0).write = some (50999/500) := by
  have hpip : trackerPipValue "EURUSD" = 1/10000 := by
    unfold trackerPipValue
    rw [if_neg (by decide), if_neg (by decide)]
  have hnum : get_position_num [] 7 "" = none := by
    unfold get_position_num
    simp
  unfold check_trailing_stop
  norm_num [hnum, hpip]

/-- Concrete SELL trailing poll that writes: EURUSD position (ticket 7,
open 100, stop 50), price 10 → stop written at `10 + 20·0.0001`. -/
theorem check_trailing_sell_eval :
    (check_trailing_stop ⟨20, 10, false, false⟩ [] (fun _ => false)
      (fun _ => none) ⟨7, "EURUSD", 100, 50, 0, ""⟩ "SELL" "EURUSD" 10
      0).write = some (5001/500) := by
  have hpip : trackerPipValue "EURUSD" = 1/10000 := by
    unfold trackerPipValue
    rw [if_neg (by decide), if_neg (by decide)]
  have hnum : get_position_num [] 7 "" = none := by
    unfold get_position_num
    simp
  unfold check_trailing_stop
  norm_num [hnum, hpip]
  simp only [String.reduceEq, reduceIte]
  norm_num

end MT5

namespace MT5

/-- Witness for C4: the un-armed runner (slot 3, ticket 7) is untouched by
a trailing poll; arming anchors its stop at `2660 - 20·0.01`; a concrete
armed/ordinary poll write obeys the ratchet; and a price short of TP2 with
no history confirmation arms nothing. -/
theorem runner_armed_only_after_tp2_witness :
    check_trailing_stop ⟨20, 10, true, true⟩ [] (fun _ => false)
        (fun _ => none) ⟨7, "XAUUSD", 2650, 2645, 0, "sid_pos3"⟩ "BUY"
        "XAUUSD" 2655 0 = ⟨fun _ => none, none⟩ ∧
    (activate_position_3_trailing ⟨20, 10, true, true⟩ [] (fun _ => false)
        (fun _ => none) (fun _ => false) "sid" (some sigGold) none
        ([] ++ ⟨7, "XAUUSD", 2650, 2645, 0, "sid_pos3"⟩ :: [])
        (some 2661)).write
      = some (7, if sigGold.direction = "BUY" then
          2660 - (20 : ℚ) * trackerPipValue sigGold.symbol
        else 2660 + (20 : ℚ) * trackerPipValue sigGold.symbol) ∧
    (activate_position_3_trailing ⟨20, 10, true, true⟩ [] (fun _ => false)
        (fun _ => none) (fun _ => false) "sid" (some sigGold) none
        ([] ++ ⟨7, "XAUUSD", 2650, 2645, 0, "sid_pos3"⟩ :: [])
        (some 2661)).activated 7 = true ∧
    ((1 : ℚ) = 0 ∨ (1 : ℚ) < 50999/500) ∧
    ((50 : ℚ) = 0 ∨ (5001/500 : ℚ) < 50) ∧
    check_tp2_reached ⟨20, 10, true, true⟩ [] (fun _ => false)
        (fun _ => none) (fun _ => false) "sid" sigGold 2650 false []
      = ⟨fun _ => false, fun _ => none, fun _ => false, none, false⟩ := by
  have hp3 : get_position_num [] 7 "sid_pos3" = some 3 := by decide
  refine ⟨?_, ?_, ?_, ?_, ?_, ?_⟩
  · exact runner_armed_only_after_tp2.1 ⟨20, 10, true, true⟩ []
      (fun _ => false) (fun _ => none) _ "BUY" "XAUUSD" 2655 0 rfl rfl
      hp3 rfl
  · exact (runner_armed_only_after_tp2.2.1 ⟨20, 10, true, true⟩ []
      (fun _ => false) (fun _ => none) (fun _ => false) "sid" sigGold 2660
      (some 2661) none [] [] ⟨7, "XAUUSD", 2650, 2645, 0, "sid_pos3"⟩
      rfl (by norm_num) (by decide) (by intro q hq; simp at hq)
      hp3 rfl).1
  · exact (runner_armed_only_after_tp2.2.1 ⟨20, 10, true, true⟩ []
      (fun _ => false) (fun _ => none) (fun _ => false) "sid" sigGold 2660
      (some 2661) none [] [] ⟨7, "XAUUSD", 2650, 2645, 0, "sid_pos3"⟩
      rfl (by norm_num) (by decide) (by intro q hq; simp at hq)
      hp3 rfl).2.1
  · exact runner_armed_only_after_tp2.2.2.1 ⟨20, 10, false, false⟩ []
      (fun _ => false) (fun _ => none) ⟨7, "EURUSD", 100, 1, 0, ""⟩
      "EURUSD" 102 0 (50999/500) check_trailing_buy_eval
  · exact runner_armed_only_after_tp2.2.2.2.1 ⟨20, 10, false, false⟩ []
      (fun _ => false) (fun _ => none) ⟨7, "EURUSD", 100, 50, 0, ""⟩
      "EURUSD" 10 0 (5001/500) (by norm_num) (by norm_num)
      (by intro b hb; simp at hb) check_trailing_sell_eval
  · exact runner_armed_only_after_tp2.2.2.2.2 ⟨20, 10, true, true⟩ []
      (fun _ => false) (fun _ => none) (fun _ => false) "sid" sigGold 2660
      2650 false [] rfl (fun _ => by norm_num)
      (fun hd => absurd rfl hd) rfl

end MT5

namespace MT5

/-- Banker's rounding of an integer is the integer itself. -/
theorem pyRound_intCast (z : ℤ) : pyRound (z : ℚ) = z := by
  unfold pyRound
  rw [Int.floor_intCast]
  norm_num

/-- Zeta-reduced equation for `pyRound`. -/
theorem pyRound_def (x : ℚ) :
    pyRound x = if x - ⌊x⌋ < 1/2 then ⌊x⌋
      else if 1/2 < x - ⌊x⌋ then ⌊x⌋ + 1
      else if Even ⌊x⌋ then ⌊x⌋ else ⌊x⌋ + 1 := rfl

/-- Banker's rounding moves a value by at most one half. -/
theorem abs_pyRound_sub (x : ℚ) : |(pyRound x : ℚ) - x| ≤ 1/2 := by
  have h0 : ((⌊x⌋ : ℤ) : ℚ) ≤ x := Int.floor_le x
  have h1 : x < (⌊x⌋ : ℚ) + 1 := Int.lt_floor_add_one x
  rw [pyRound_def]
  split_ifs with hr hr' he <;>
    · rw [abs_le]; constructor <;> push_cast <;> linarith

/-- `round(x, 2)` of a whole multiple of a step `k/100` is the value
itself. -/
theorem pyRound2_step_multiple (z : ℤ) (k : ℕ) :
    pyRound2 ((z : ℚ) * ((k : ℚ) / 100)) = (z : ℚ) * ((k : ℚ) / 100) := by
  unfold pyRound2
  have h : ((z : ℚ) * ((k : ℚ) / 100)) * 100 = ((z * (k : ℤ) : ℤ) : ℚ) := by
    push_cast; ring
  rw [h, pyRound_intCast]
  push_cast; ring

/-- Pip distances are nonnegative. -/
theorem calculate_pip_distance_nonneg (p₁ p₂ : ℚ) (symbol : String) :
    0 ≤ calculate_pip_distance p₁ p₂ symbol := by
  unfold calculate_pip_distance
  split_ifs <;> positivity

/-- The per-lot pip value is positive for a positive contract size. -/
theorem pip_value_per_lot_pos (symbol : String) (cs : ℚ) (h : 0 < cs) :
    0 < pip_value_per_lot symbol cs := by
  unfold pip_value_per_lot
  split_ifs <;> nlinarith

/-- When neither venue clamp binds and the lot step is a whole multiple of
0.01, `_calculate_lot_size` returns exactly the step-rounded lot. -/
theorem calculate_lot_size_no_clamp (s : Signal) (info : SymbolInfo)
    (rpp : ℚ) (pos : ℕ) (k : ℕ) (hk : 0 < k)
    (hstep : info.volume_step = (k : ℚ) / 100)
    (hD : slotPipDistance s info pos ≠ 0)
    (hmin : info.volume_min ≤ slotSteppedLot s info rpp pos)
    (hmax : slotSteppedLot s info rpp pos ≤ info.volume_max) :
    calculate_lot_size s.symbol (slotEntry s pos)
        (slotSl s pos info.point) rpp info
      = some (slotSteppedLot s info rpp pos) := by
  unfold calculate_lot_size
  rw [if_neg (by simpa [slotPipDistance] using hD)]
  show some (pyRound2 (max info.volume_min
      (min (slotSteppedLot s info rpp pos) info.volume_max)))
    = some (slotSteppedLot s info rpp pos)
  rw [min_eq_left hmax, max_eq_right hmin]
  rw [show slotSteppedLot s info rpp pos
      = (pyRound (slotUnroundedLot s info rpp pos / info.volume_step) : ℚ)
        * ((k : ℚ) / 100) from by rw [← hstep]; rfl]
  rw [pyRound2_step_multiple]

end MT5

namespace MT5

/-- Per-slot risk error: the implied risk of the step-rounded lot differs
from the per-slot budget by at most half a lot-step's worth of risk. -/
theorem slot_risk_bound (s : Signal) (info : SymbolInfo) (rpp : ℚ)
    (pos : ℕ) (hD : slotPipDistance s info pos ≠ 0)
    (hV : 0 < pip_value_per_lot s.symbol info.trade_contract_size)
    (hsp : 0 < info.volume_step) :
    |slotSteppedLot s info rpp pos * slotPipDistance s info pos
        * pip_value_per_lot s.symbol info.trade_contract_size - rpp|
      ≤ info.volume_step / 2
        * (slotPipDistance s info pos
            * pip_value_per_lot s.symbol info.trade_contract_size) := by
  have hDpos : 0 < slotPipDistance s info pos :=
    lt_of_le_of_ne
      (calculate_pip_distance_nonneg (slotEntry s pos)
        (slotSl s pos info.point) s.symbol) (Ne.symm hD)
  have hDV : 0 < slotPipDistance s info pos
      * pip_value_per_lot s.symbol info.trade_contract_size :=
    mul_pos hDpos hV
  have hu : slotUnroundedLot s info rpp pos
      * (slotPipDistance s info pos
        * pip_value_per_lot s.symbol info.trade_contract_size) = rpp := by
    unfold slotUnroundedLot
    exact div_mul_cancel₀ _ (ne_of_gt hDV)
  have h2 : |slotSteppedLot s info rpp pos
      - slotUnroundedLot s info rpp pos| ≤ info.volume_step / 2 := by
    unfold slotSteppedLot
    rw [show (pyRound (slotUnroundedLot s info rpp pos / info.volume_step)
          : ℚ) * info.volume_step - slotUnroundedLot s info rpp pos
        = ((pyRound (slotUnroundedLot s info rpp pos / info.volume_step)
            : ℚ) - slotUnroundedLot s info rpp pos / info.volume_step)
          * info.volume_step from by
      rw [sub_mul, div_mul_cancel₀ _ (ne_of_gt hsp)]]
    rw [abs_mul, abs_of_pos hsp]
    calc |(pyRound (slotUnroundedLot s info rpp pos / info.volume_step)
            : ℚ) - slotUnroundedLot s info rpp pos / info.volume_step|
          * info.volume_step
        ≤ 1/2 * info.volume_step := by
          exact mul_le_mul_of_nonneg_right
            (abs_pyRound_sub _) (le_of_lt hsp)
      _ = info.volume_step / 2 := by ring
  calc |slotSteppedLot s info rpp pos * slotPipDistance s info pos
          * pip_value_per_lot s.symbol info.trade_contract_size - rpp|
      = |(slotSteppedLot s info rpp pos - slotUnroundedLot s info rpp pos)
          * (slotPipDistance s info pos
            * pip_value_per_lot s.symbol info.trade_contract_size)| := by
        rw [sub_mul, hu]; ring_nf
    _ = |slotSteppedLot s info rpp pos - slotUnroundedLot s info rpp pos|
          * (slotPipDistance s info pos
            * pip_value_per_lot s.symbol info.trade_contract_size) := by
        rw [abs_mul, abs_of_pos hDV]
    _ ≤ info.volume_step / 2
          * (slotPipDistance s info pos
            * pip_value_per_lot s.symbol info.trade_contract_size) :=
        mul_le_mul_of_nonneg_right h2 (le_of_lt hDV)

end MT5

namespace MT5

/-- C6 as amended: when the lot step is a whole multiple of 0.01 and
neither venue clamp binds on any slot, the sizing calculator returns the
step-rounded per-slot lots, and the total implied risk
(Σ lot × pip distance × pip value) equals `balance × risk%` within one
lot-step of rounding error per slot (in fact within half a step per
slot). -/
theorem lot_sizing_risk_bound
    (balance risk_percent : ℚ) (s : Signal) (info : SymbolInfo) (k : ℕ)
    (hk : 0 < k) (hstep : info.volume_step = (k : ℚ) / 100)
    (hcs : 0 < info.trade_contract_size)
    (hD : ∀ pos ∈ [1, 2, 3], slotPipDistance s info pos ≠ 0)
    (hclamp : ∀ pos ∈ [1, 2, 3],
      info.volume_min ≤ slotSteppedLot s info
        (balance * (risk_percent / 100) / 3) pos ∧
      slotSteppedLot s info (balance * (risk_percent / 100) / 3) pos
        ≤ info.volume_max) :
    calculate_lot_sizes balance risk_percent 3 s info
      = some [slotSteppedLot s info (balance * (risk_percent / 100) / 3) 1,
          slotSteppedLot s info (balance * (risk_percent / 100) / 3) 2,
          slotSteppedLot s info (balance * (risk_percent / 100) / 3) 3] ∧
    |slotSteppedLot s info (balance * (risk_percent / 100) / 3) 1
        * slotPipDistance s info 1
        * pip_value_per_lot s.symbol info.trade_contract_size
      + slotSteppedLot s info (balance * (risk_percent / 100) / 3) 2
        * slotPipDistance s info 2
        * pip_value_per_lot s.symbol info.trade_contract_size
      + slotSteppedLot s info (balance * (risk_percent / 100) / 3) 3
        * slotPipDistance s info 3
        * pip_value_per_lot s.symbol info.trade_contract_size
      - balance * (risk_percent / 100)|
      ≤ info.volume_step * slotPipDistance s info 1
          * pip_value_per_lot s.symbol info.trade_contract_size
        + info.volume_step * slotPipDistance s info 2
          * pip_value_per_lot s.symbol info.trade_contract_size
        + info.volume_step * slotPipDistance s info 3
          * pip_value_per_lot s.symbol info.trade_contract_size := by
  have hV := pip_value_per_lot_pos s.symbol info.trade_contract_size hcs
  have hkq : (0 : ℚ) < (k : ℚ) := by exact_mod_cast hk
  have hsp : 0 < info.volume_step := by
    rw [hstep]; exact div_pos hkq (by norm_num)
  have e1 := calculate_lot_size_no_clamp s info
    (balance * (risk_percent / 100) / 3) 1 k hk hstep
    (hD 1 (by simp)) (hclamp 1 (by simp)).1 (hclamp 1 (by simp)).2
  have e2 := calculate_lot_size_no_clamp s info
    (balance * (risk_percent / 100) / 3) 2 k hk hstep
    (hD 2 (by simp)) (hclamp 2 (by simp)).1 (hclamp 2 (by simp)).2
  have e3 := calculate_lot_size_no_clamp s info
    (balance * (risk_percent / 100) / 3) 3 k hk hstep
    (hD 3 (by simp)) (hclamp 3 (by simp)).1 (hclamp 3 (by simp)).2
  constructor
  · unfold calculate_lot_sizes
    rw [show ((List.range 3).map (· + 1)) = [1, 2, 3] from by rfl]
    show lotSizesLoop s info (balance * (risk_percent / 100) / ((3:ℕ):ℚ))
        [1, 2, 3] = _
    rw [show ((3:ℕ):ℚ) = 3 from by norm_num]
    simp only [lotSizesLoop, e1, e2, e3]
  · have b1 := slot_risk_bound s info
      (balance * (risk_percent / 100) / 3) 1 (hD 1 (by simp)) hV hsp
    have b2 := slot_risk_bound s info
      (balance * (risk_percent / 100) / 3) 2 (hD 2 (by simp)) hV hsp
    have b3 := slot_risk_bound s info
      (balance * (risk_percent / 100) / 3) 3 (hD 3 (by simp)) hV hsp
    have hD1 : (0:ℚ) ≤ slotPipDistance s info 1 :=
      calculate_pip_distance_nonneg _ _ _
    have hD2 : (0:ℚ) ≤ slotPipDistance s info 2 :=
      calculate_pip_distance_nonneg _ _ _
    have hD3 : (0:ℚ) ≤ slotPipDistance s info 3 :=
      calculate_pip_distance_nonneg _ _ _
    have key : slotSteppedLot s info (balance * (risk_percent / 100) / 3) 1
        * slotPipDistance s info 1
        * pip_value_per_lot s.symbol info.trade_contract_size
      + slotSteppedLot s info (balance * (risk_percent / 100) / 3) 2
        * slotPipDistance s info 2
        * pip_value_per_lot s.symbol info.trade_contract_size
      + slotSteppedLot s info (balance * (risk_percent / 100) / 3) 3
        * slotPipDistance s info 3
        * pip_value_per_lot s.symbol info.trade_contract_size
      - balance * (risk_percent / 100)
      = (slotSteppedLot s info (balance * (risk_percent / 100) / 3) 1
          * slotPipDistance s info 1
          * pip_value_per_lot s.symbol info.trade_contract_size
          - balance * (risk_percent / 100) / 3)
        + ((slotSteppedLot s info (balance * (risk_percent / 100) / 3) 2
          * slotPipDistance s info 2
          * pip_value_per_lot s.symbol info.trade_contract_size
          - balance * (risk_percent / 100) / 3)
        + (slotSteppedLot s info (balance * (risk_percent / 100) / 3) 3
          * slotPipDistance s info 3
          * pip_value_per_lot s.symbol info.trade_contract_size
          - balance * (risk_percent / 100) / 3)) := by ring
    rw [key]
    have tri := (abs_add
      (slotSteppedLot s info (balance * (risk_percent / 100) / 3) 1
        * slotPipDistance s info 1
        * pip_value_per_lot s.symbol info.trade_contract_size
        - balance * (risk_percent / 100) / 3)
      ((slotSteppedLot s info (balance * (risk_percent / 100) / 3) 2
        * slotPipDistance s info 2
        * pip_value_per_lot s.symbol info.trade_contract_size
        - balance * (risk_percent / 100) / 3)
      + (slotSteppedLot s info (balance * (risk_percent / 100) / 3) 3
        * slotPipDistance s info 3
        * pip_value_per_lot s.symbol info.trade_contract_size
        - balance * (risk_percent / 100) / 3)))
    have tri2 := abs_add
      (slotSteppedLot s info (balance * (risk_percent / 100) / 3) 2
        * slotPipDistance s info 2
        * pip_value_per_lot s.symbol info.trade_contract_size
        - balance * (risk_percent / 100) / 3)
      (slotSteppedLot s info (balance * (risk_percent / 100) / 3) 3
        * slotPipDistance s info 3
        * pip_value_per_lot s.symbol info.trade_contract_size
        - balance * (risk_percent / 100) / 3)
    have hm1 : (0:ℚ) ≤ slotPipDistance s info 1
        * pip_value_per_lot s.symbol info.trade_contract_size :=
      mul_nonneg hD1 (le_of_lt hV)
    have hm2 : (0:ℚ) ≤ slotPipDistance s info 2
        * pip_value_per_lot s.symbol info.trade_contract_size :=
      mul_nonneg hD2 (le_of_lt hV)
    have hm3 : (0:ℚ) ≤ slotPipDistance s info 3
        * pip_value_per_lot s.symbol info.trade_contract_size :=
      mul_nonneg hD3 (le_of_lt hV)
    nlinarith [mul_nonneg (le_of_lt hsp) hm1, mul_nonneg (le_of_lt hsp) hm2,
      mul_nonneg (le_of_lt hsp) hm3]

end MT5

namespace MT5

/-- All three slots of `sigC6` resolve to a 550-pip stop distance. -/
theorem sigC6_slot_distances :
    slotPipDistance sigC6 infoC6 1 = 550 ∧
    slotPipDistance sigC6 infoC6 2 = 550 ∧
    slotPipDistance sigC6 infoC6 3 = 550 ∧
    slotPipDistance sigC6 infoC6w 1 = 550 ∧
    slotPipDistance sigC6 infoC6w 2 = 550 ∧
    slotPipDistance sigC6 infoC6w 3 = 550 := by
  refine ⟨?_, ?_, ?_, ?_, ?_, ?_⟩ <;>
    · unfold slotPipDistance slotEntry slotSl calculate_pip_distance
      norm_num [sigC6, pyOrQ, pyTruthy]
      rw [if_pos (Or.inl (by decide : containsSub "XAU" "XAUUSD" = true))]
      rw [show |(11:ℚ)/2| = 11/2 from by norm_num [abs_of_nonneg]]
      norm_num

end MT5

namespace MT5

/-- The XAUUSD per-lot pip value with contract size 100 is 1. -/
theorem sigC6_pip_value :
    pip_value_per_lot "XAUUSD" 100 = 1 := by
  unfold pip_value_per_lot
  rw [if_pos (by decide :
    (containsSub "XAU" "XAUUSD" || containsSub "GOLD" "XAUUSD") = true)]
  norm_num

/-- Each `sigC6` slot's step-rounded lot for a 330000 balance at 1% risk
(per-slot budget 1100) is exactly 2 lots. -/
theorem sigC6_stepped_lots :
    slotSteppedLot sigC6 infoC6w (330000 * (1/100) / 3) 1 = 2 ∧
    slotSteppedLot sigC6 infoC6w (330000 * (1/100) / 3) 2 = 2 ∧
    slotSteppedLot sigC6 infoC6w (330000 * (1/100) / 3) 3 = 2 := by
  refine ⟨?_, ?_, ?_⟩
  · unfold slotSteppedLot slotUnroundedLot
    rw [sigC6_slot_distances.2.2.2.1,
      show pip_value_per_lot sigC6.symbol infoC6w.trade_contract_size = 1
        from sigC6_pip_value]
    norm_num [pyRound_def, infoC6w]
  · unfold slotSteppedLot slotUnroundedLot
    rw [sigC6_slot_distances.2.2.2.2.1,
      show pip_value_per_lot sigC6.symbol infoC6w.trade_contract_size = 1
        from sigC6_pip_value]
    norm_num [pyRound_def, infoC6w]
  · unfold slotSteppedLot slotUnroundedLot
    rw [sigC6_slot_distances.2.2.2.2.2,
      show pip_value_per_lot sigC6.symbol infoC6w.trade_contract_size = 1
        from sigC6_pip_value]
    norm_num [pyRound_def, infoC6w]

end MT5

namespace MT5

/-- Witness for C6's amended theorem: 330000 balance at 1% risk on
`sigC6` with a roomy venue (`infoC6w`): lots of 2 per slot, total implied
risk within the bound. -/
theorem lot_sizing_risk_bound_witness :
    calculate_lot_sizes 330000 1 3 sigC6 infoC6w
      = some [slotSteppedLot sigC6 infoC6w (330000 * (1 / 100) / 3) 1,
          slotSteppedLot sigC6 infoC6w (330000 * (1 / 100) / 3) 2,
          slotSteppedLot sigC6 infoC6w (330000 * (1 / 100) / 3) 3] ∧
    |slotSteppedLot sigC6 infoC6w (330000 * (1 / 100) / 3) 1
        * slotPipDistance sigC6 infoC6w 1
        * pip_value_per_lot sigC6.symbol infoC6w.trade_contract_size
      + slotSteppedLot sigC6 infoC6w (330000 * (1 / 100) / 3) 2
        * slotPipDistance sigC6 infoC6w 2
        * pip_value_per_lot sigC6.symbol infoC6w.trade_contract_size
      + slotSteppedLot sigC6 infoC6w (330000 * (1 / 100) / 3) 3
        * slotPipDistance sigC6 infoC6w 3
        * pip_value_per_lot sigC6.symbol infoC6w.trade_contract_size
      - 330000 * ((1 : ℚ) / 100)|
      ≤ infoC6w.volume_step * slotPipDistance sigC6 infoC6w 1
          * pip_value_per_lot sigC6.symbol infoC6w.trade_contract_size
        + infoC6w.volume_step * slotPipDistance sigC6 infoC6w 2
          * pip_value_per_lot sigC6.symbol infoC6w.trade_contract_size
        + infoC6w.volume_step * slotPipDistance sigC6 infoC6w 3
          * pip_value_per_lot sigC6.symbol infoC6w.trade_contract_size :=
  lot_sizing_risk_bound 330000 1 sigC6 infoC6w 1 (by norm_num)
    (by norm_num [infoC6w]) (by norm_num [infoC6w])
    (by
      intro pos hpos
      fin_cases hpos
      · rw [sigC6_slot_distances.2.2.2.1]; norm_num
      · rw [sigC6_slot_distances.2.2.2.2.1]; norm_num
      · rw [sigC6_slot_distances.2.2.2.2.2]; norm_num)
    (by
      intro pos hpos
      fin_cases hpos
      · rw [sigC6_stepped_lots.1]; norm_num [infoC6w]
      · rw [sigC6_stepped_lots.2.1]; norm_num [infoC6w]
      · rw [sigC6_stepped_lots.2.2]; norm_num [infoC6w])

/-- Shape of `_calculate_lot_size` when the pip distance is nonzero:
step-round, clamp, round to two decimals. -/
theorem calculate_lot_size_shape (sym : String) (e sl rpp : ℚ)
    (info : SymbolInfo) (hD : calculate_pip_distance e sl sym ≠ 0) :
    calculate_lot_size sym e sl rpp info
      = some (pyRound2 (max info.volume_min (min
          ((pyRound (rpp / (calculate_pip_distance e sl sym
              * pip_value_per_lot sym info.trade_contract_size)
            / info.volume_step) : ℚ) * info.volume_step)
          info.volume_max))) := by
  show (if calculate_pip_distance e sl sym = 0 then none
    else some (pyRound2 (max info.volume_min (min
      ((pyRound (rpp / (calculate_pip_distance e sl sym
          * pip_value_per_lot sym info.trade_contract_size)
        / info.volume_step) : ℚ) * info.volume_step)
      info.volume_max)))) = _
  rw [if_neg hD]

end MT5

namespace MT5

/-- With the tight venue `infoC6` (`volume_max = 1`), every slot of
`sigC6` at 330000 balance / 1% risk clamps from 2 lots down to 1. -/
theorem sigC6_clamped_eval :
    calculate_lot_sizes 330000 1 3 sigC6 infoC6 = some [1, 1, 1] := by
  have h1 : calculate_lot_size sigC6.symbol (slotEntry sigC6 1)
      (slotSl sigC6 1 infoC6.point) (330000 * (1/100) / ((3:ℕ):ℚ))
      infoC6 = some 1 := by
    rw [calculate_lot_size_shape _ _ _ _ _
      (by rw [show calculate_pip_distance (slotEntry sigC6 1)
          (slotSl sigC6 1 infoC6.point) sigC6.symbol = 550 from
          sigC6_slot_distances.1]; norm_num)]
    rw [show calculate_pip_distance (slotEntry sigC6 1)
        (slotSl sigC6 1 infoC6.point) sigC6.symbol = 550 from
        sigC6_slot_distances.1,
      show pip_value_per_lot sigC6.symbol infoC6.trade_contract_size = 1
        from sigC6_pip_value]
    norm_num [pyRound_def, pyRound2, infoC6]
  have h2 : calculate_lot_size sigC6.symbol (slotEntry sigC6 2)
      (slotSl sigC6 2 infoC6.point) (330000 * (1/100) / ((3:ℕ):ℚ))
      infoC6 = some 1 := by
    rw [calculate_lot_size_shape _ _ _ _ _
      (by rw [show calculate_pip_distance (slotEntry sigC6 2)
          (slotSl sigC6 2 infoC6.point) sigC6.symbol = 550 from
          sigC6_slot_distances.2.1]; norm_num)]
    rw [show calculate_pip_distance (slotEntry sigC6 2)
        (slotSl sigC6 2 infoC6.point) sigC6.symbol = 550 from
        sigC6_slot_distances.2.1,
      show pip_value_per_lot sigC6.symbol infoC6.trade_contract_size = 1
        from sigC6_pip_value]
    norm_num [pyRound_def, pyRound2, infoC6]
  have h3 : calculate_lot_size sigC6.symbol (slotEntry sigC6 3)
      (slotSl sigC6 3 infoC6.point) (330000 * (1/100) / ((3:ℕ):ℚ))
      infoC6 = some 1 := by
    rw [calculate_lot_size_shape _ _ _ _ _
      (by rw [show calculate_pip_distance (slotEntry sigC6 3)
          (slotSl sigC6 3 infoC6.point) sigC6.symbol = 550 from
          sigC6_slot_distances.2.2.1]; norm_num)]
    rw [show calculate_pip_distance (slotEntry sigC6 3)
        (slotSl sigC6 3 infoC6.point) sigC6.symbol = 550 from
        sigC6_slot_distances.2.2.1,
      show pip_value_per_lot sigC6.symbol infoC6.trade_contract_size = 1
        from sigC6_pip_value]
    norm_num [pyRound_def, pyRound2, infoC6]
  unfold calculate_lot_sizes
  rw [show ((List.range 3).map (· + 1)) = [1, 2, 3] from by rfl]
  simp only [lotSizesLoop, h1, h2, h3]

/-- Counterexample for C6: the risk-sum property fails as soon as a venue
clamp binds.  With `sigC6` (550 pips per slot), balance 330000, risk 1%
and `volume_max = 1`, the calculator clamps every slot to 1 lot: implied
risk `3 × 550` = 1650 differs from the 3300 budget by 1650, far more than
one lot-step of rounding error per slot (16.5). -/
theorem lot_sizing_risk_bound_cx :
    calculate_lot_sizes 330000 1 3 sigC6 infoC6 = some [1, 1, 1] ∧
    pip_value_per_lot sigC6.symbol infoC6.trade_contract_size = 1 ∧
    slotPipDistance sigC6 infoC6 1 = 550 ∧
    slotPipDistance sigC6 infoC6 2 = 550 ∧
    slotPipDistance sigC6 infoC6 3 = 550 ∧
    ¬(|((1 : ℚ) * 550 * 1 + 1 * 550 * 1 + 1 * 550 * 1)
        - 330000 * ((1 : ℚ) / 100)|
      ≤ infoC6.volume_step * 550 * 1 + infoC6.volume_step * 550 * 1
        + infoC6.volume_step * 550 * 1) := by
  refine ⟨sigC6_clamped_eval, sigC6_pip_value, sigC6_slot_distances.1,
    sigC6_slot_distances.2.1, sigC6_slot_distances.2.2.1, ?_⟩
  rw [show |((1 : ℚ) * 550 * 1 + 1 * 550 * 1 + 1 * 550 * 1)
      - 330000 * ((1 : ℚ) / 100)| = 1650 from by
    rw [show ((1 : ℚ) * 550 * 1 + 1 * 550 * 1 + 1 * 550 * 1)
        - 330000 * ((1 : ℚ) / 100) = -1650 from by norm_num]
    rw [abs_of_nonpos (by norm_num)]
    norm_num]
  norm_num [infoC6]

end MT5

namespace MT5

/-- Counterexample for C2: invoking `activate_protection` a second time
does NOT leave the final state identical — the recorded activation
timestamp is overwritten with the second invocation's time
(`self.protection_timestamps[signal_id] = datetime.now().isoformat()` runs
unconditionally; there is no already-fired guard inside the routine). -/
theorem activate_protection_twice_cx :
    (activate_protection true protSt0 "sid" true 10).1.protection_timestamps
        "sid" = some 10 ∧
    (activate_protection true
        (activate_protection true protSt0 "sid" true 10).1 "sid" true
        20).1.protection_timestamps "sid" = some 20 ∧
    (some 20 : Option ℕ) ≠ some 10 :=
  ⟨rfl, rfl, by decide⟩

end MT5

namespace MT5

/-- `breakevenMove` never changes a position's comment or open price. -/
theorem breakevenMove_comment_open (r : Bool) (d : String) (p : Position) :
    (breakevenMove r d p).1.comment = p.comment ∧
    (breakevenMove r d p).1.open_price = p.open_price := by
  simp only [breakevenMove]
  constructor <;> (split_ifs <;> rfl)

/-- A second `breakevenMove` on the result of a first one is a no-op
(the stop is already at or beyond breakeven, and nonzero because the open
price exceeds the 0.1 buffer). -/
theorem breakevenMove_idem (r : Bool) (d : String) (p : Position)
    (hopen : 1/10 < p.open_price) :
    breakevenMove r d (breakevenMove r d p).1
      = ((breakevenMove r d p).1, none) := by
  simp only [breakevenMove]
  split_ifs <;> simp_all <;> linarith

/-- A per-position transform that fixes every element of a list makes
the mapped position list the identity and yields no effects. -/
theorem map_noop_pair (g : Position → Position × Option (ℕ × ℚ))
    (l : List Position) (h : ∀ p ∈ l, g p = (p, none)) :
    (l.map g).map Prod.fst = l ∧ (l.map g).filterMap Prod.snd = [] := by
  induction l with
  | nil => simp
  | cons p rest ih =>
    obtain ⟨h1, h2⟩ := ih (fun q hq => h q (List.mem_cons_of_mem p hq))
    have hp := h p (List.mem_cons_self p rest)
    simp [hp, h1, h2]

/-- `_move_positions_to_breakeven` does not touch pending orders. -/
theorem move_positions_pending (runner : Bool) (sid : String)
    (tr : List TrackedSignal) (v : Venue) :
    (move_positions_to_breakeven runner sid tr v).1.pending = v.pending := by
  unfold move_positions_to_breakeven
  cases tr.find? (fun t => t.signal_id == sid) <;> simp

/-- Re-running `_move_positions_to_breakeven` on its own result moves
nothing further. -/
theorem move_positions_noop (runner : Bool) (sid : String)
    (tr : List TrackedSignal) (v : Venue)
    (hopen : ∀ p ∈ v.positions, 1/10 < p.open_price) :
    move_positions_to_breakeven runner sid tr
        (move_positions_to_breakeven runner sid tr v).1
      = ((move_positions_to_breakeven runner sid tr v).1, []) := by
  cases hf : tr.find? (fun t => t.signal_id == sid) with
  | none => simp [move_positions_to_breakeven, hf]
  | some info =>
    simp only [move_positions_to_breakeven, hf]
    obtain ⟨hmap, heff⟩ := map_noop_pair
      (fun p => if containsSub sid p.comment = true then
          breakevenMove runner info.signal.direction p
        else (p, none))
      ((v.positions.map (fun p =>
          if containsSub sid p.comment = true then
            breakevenMove runner info.signal.direction p
          else (p, none))).map Prod.fst)
      (by
        intro q hq
        rw [List.map_map] at hq
        obtain ⟨p, hp, hpq⟩ := List.mem_map.1 hq
        show (if containsSub sid q.comment = true then
            breakevenMove runner info.signal.direction q
          else (q, none)) = (q, none)
        by_cases hc : containsSub sid p.comment = true
        · have hq1 : q = (breakevenMove runner info.signal.direction p).1 := by
            simp only [Function.comp, if_pos hc] at hpq
            exact hpq.symm
          have hcq : containsSub sid q.comment = true := by
            rw [hq1, (breakevenMove_comment_open _ _ _).1]
            exact hc
          rw [if_pos hcq, hq1]
          exact breakevenMove_idem runner info.signal.direction p
            (hopen p hp)
        · have hq1 : q = p := by
            simp only [Function.comp, if_neg hc] at hpq
            exact hpq.symm
          rw [hq1, if_neg hc]
      )
    rw [hmap, heff]

/-- Rewriting statuses on matching records does not change which ids are
present. -/
theorem any_map_status_update (id st : String) (now : ℕ)
    (db : List SignalRecord) :
    (db.map (fun r => if r.signal_id == id then
        { r with status := st, status_updated_at := now } else r)).any
      (fun r => r.signal_id == id) = db.any (fun r => r.signal_id == id) := by
  induction db with
  | nil => rfl
  | cons r rest ih =>
    by_cases h : (r.signal_id == id) = true
    · simp only [List.map_cons, List.any_cons, if_pos h, ih]
    · simp only [List.map_cons, List.any_cons, if_neg h, ih]

/-- `update_signal_status` does not change whether the id occurs in the
database. -/
theorem any_update_signal_status (id st : String) (now : ℕ)
    (db : List SignalRecord) :
    ((update_signal_status id st now db).2).any (fun r => r.signal_id == id)
      = db.any (fun r => r.signal_id == id) := by
  simp only [update_signal_status]
  by_cases h : db.any (fun r => r.signal_id == id) = true
  · rw [if_pos h]
    exact any_map_status_update id st now db
  · rw [if_neg h]

/-- After rewriting statuses on matching records, the first match found has
the new status. -/
theorem find_map_status (id st : String) (now : ℕ)
    (l : List SignalRecord)
    (h : l.any (fun r => r.signal_id == id) = true) :
    ((l.map (fun r => if r.signal_id == id then
        { r with status := st, status_updated_at := now } else r)).find?
      (fun r => r.signal_id == id)).map (·.status) = some st := by
  induction l with
  | nil => simp at h
  | cons r rest ih =>
    by_cases hr : (r.signal_id == id) = true
    · simp only [List.map_cons, if_pos hr]
      rw [List.find?_cons_of_pos (p := fun x : SignalRecord => x.signal_id == id) (a := ({ signal_id := r.signal_id, status := st, status_updated_at := now } : SignalRecord)) _ hr]
      rfl
    · simp only [List.map_cons]
      rw [if_neg hr]
      rw [List.find?_cons_of_neg (p := fun x : SignalRecord => x.signal_id == id) (a := r) _ hr]
      rw [List.any_cons, Bool.or_eq_true] at h
      rcases h with h | h
      · exact absurd h hr
      · exact ih h

/-- When the id is present, `update_signal_status` leaves the looked-up
status equal to the supplied value. -/
theorem check_status_after_update_of_match (id st : String) (now : ℕ)
    (db : List SignalRecord)
    (h : db.any (fun r => r.signal_id == id) = true) :
    check_signal_status id (update_signal_status id st now db).2 = some st := by
  simp only [update_signal_status]
  rw [if_pos h]
  simp only [check_signal_status, get_signal_by_id]
  rw [← List.map_reverse]
  exact find_map_status id st now db.reverse (by rwa [List.any_reverse])

/-- When the id is absent, `update_signal_status` returns the database
unchanged. -/
theorem update_signal_status_of_no_match (id st : String) (now : ℕ)
    (db : List SignalRecord)
    (h : db.any (fun r => r.signal_id == id) = false) :
    (update_signal_status id st now db).2 = db := by
  simp only [update_signal_status]
  rw [if_neg (by simp [h])]

end MT5

namespace MT5

set_option maxHeartbeats 1600000 in
/-- C2: amended idempotence of `TP2Protection.activate_protection`. Given
that every pending order on the signal-holding symbol carries the signal id
in its comment (so the symbol-wide cancellation fallback selects nothing
new) and every open position has open price above the 0.1 breakeven buffer,
a second invocation issues no further cancellations and no further stop
modifications, and leaves the venue, the protected flag and the looked-up
ledger status unchanged; it is however not a strict no-op on the state: it
overwrites the recorded activation timestamp with the time of the second
invocation (see the counterexample theorem). -/
theorem activate_protection_second_noop
    (runner mv : Bool) (st0 : ProtectionState) (sid : String) (t1 t2 : ℕ)
    (hsym : ∀ o ∈ st0.venue.pending, ∀ info,
      st0.tracker_signals.find? (fun t => t.signal_id == sid) = some info →
      o.symbol = info.signal.symbol → containsSub sid o.comment = true)
    (hopen : ∀ p ∈ st0.venue.positions, 1/10 < p.open_price) :
    (activate_protection runner (activate_protection runner st0 sid mv t1).1
        sid mv t2).2.1.cancelled = [] ∧
    (activate_protection runner (activate_protection runner st0 sid mv t1).1
        sid mv t2).2.1.modified = [] ∧
    (activate_protection runner (activate_protection runner st0 sid mv t1).1
        sid mv t2).1.venue
      = (activate_protection runner st0 sid mv t1).1.venue ∧
    (activate_protection runner (activate_protection runner st0 sid mv t1).1
        sid mv t2).1.protected_signals
      = (activate_protection runner st0 sid mv t1).1.protected_signals ∧
    check_signal_status sid
        (activate_protection runner (activate_protection runner st0 sid mv
          t1).1 sid mv t2).1.db
      = check_signal_status sid
          (activate_protection runner st0 sid mv t1).1.db ∧
    (activate_protection runner (activate_protection runner st0 sid mv t1).1
        sid mv t2).1.protection_timestamps sid = some t2 ∧
    (activate_protection runner (activate_protection runner st0 sid mv t1).1
        sid mv t2).2.2 = true := by
  set s1 := (activate_protection runner st0 sid mv t1).1 with hs1
  have htr1 : s1.tracker_signals = st0.tracker_signals := by rw [hs1]; rfl
  have hdb1 : s1.db = (update_signal_status sid "tp2_hit" t1 st0.db).2 := by
    rw [hs1]; rfl
  have hprot1 : s1.protected_signals
      = fun i => if i = sid then true else st0.protected_signals i := by
    rw [hs1]; rfl
  have hpend1 : s1.venue.pending = st0.venue.pending.filter
      (fun o => ¬ ((protSelectedPending st0 sid).map (·.ticket)).contains
        o.ticket) := by
    rw [hs1]
    by_cases hmv : mv = true
    · simp only [activate_protection, if_pos hmv]
      rw [move_positions_pending]
    · simp only [activate_protection, if_neg hmv]
  have hno : ∀ o ∈ s1.venue.pending, containsSub sid o.comment = false := by
    intro o ho
    rw [hpend1] at ho
    obtain ⟨ho0, hcond⟩ := List.mem_filter.1 ho
    by_contra hmatch
    have hmt : containsSub sid o.comment = true := by
      revert hmatch
      cases containsSub sid o.comment <;> simp
    have hm0 : o ∈ get_pending_orders_by_signal sid st0.venue :=
      List.mem_filter.2 ⟨ho0, hmt⟩
    have hne : get_pending_orders_by_signal sid st0.venue ≠ [] := by
      intro hnil
      rw [hnil] at hm0
      exact absurd hm0 (List.not_mem_nil o)
    have hsel : protSelectedPending st0 sid
        = get_pending_orders_by_signal sid st0.venue := by
      simp only [protSelectedPending]
      rw [if_neg hne]
    have hcont : ((protSelectedPending st0 sid).map (·.ticket)).contains
        o.ticket = true := by
      rw [hsel]
      exact List.elem_iff.mpr (List.mem_map_of_mem _ hm0)
    simp only [decide_eq_true_eq] at hcond
    exact hcond hcont
  have hm1 : get_pending_orders_by_signal sid s1.venue = [] := by
    simp only [get_pending_orders_by_signal]
    rw [List.filter_eq_nil_iff]
    intro o ho
    rw [hno o ho]
    simp
  have hsel2 : protSelectedPending s1 sid = [] := by
    cases hf : st0.tracker_signals.find? (fun t => t.signal_id == sid) with
    | none =>
      simp only [protSelectedPending, htr1, hf]
      rw [if_pos hm1]
      exact hm1
    | some info =>
      simp only [protSelectedPending, htr1, hf]
      rw [if_pos hm1]
      by_cases hss : info.signal.symbol = ""
      · rw [if_pos hss]
        exact hm1
      · rw [if_neg hss]
        have hso : s1.venue.pending.filter
            (fun o => o.symbol == info.signal.symbol) = [] := by
          rw [List.filter_eq_nil_iff]
          intro o ho hbeq
          have ho0 : o ∈ st0.venue.pending := by
            rw [hpend1] at ho
            exact (List.mem_filter.1 ho).1
          have hmt := hsym o ho0 info hf (eq_of_beq hbeq)
          rw [hno o ho] at hmt
          exact Bool.false_ne_true hmt
        rw [if_pos hso]
        exact hm1
  have hv12 : ({ s1.venue with pending := s1.venue.pending.filter (fun o => ¬ ((protSelectedPending s1 sid).map (·.ticket)).contains o.ticket) } : Venue) = s1.venue := by
    rw [hsel2]
    simp
  have hbkfacts : (activate_protection runner s1 sid mv t2).1.venue
        = s1.venue ∧
      (activate_protection runner s1 sid mv t2).2.1.modified = [] := by
    have hA2v : (activate_protection runner s1 sid mv t2).1.venue
        = (if mv = true then move_positions_to_breakeven runner sid s1.tracker_signals { s1.venue with pending := s1.venue.pending.filter (fun o => ¬ ((protSelectedPending s1 sid).map (·.ticket)).contains o.ticket) } else ({ s1.venue with pending := s1.venue.pending.filter (fun o => ¬ ((protSelectedPending s1 sid).map (·.ticket)).contains o.ticket) }, ([] : List (ℕ × ℚ)))).1 := rfl
    have hA2m : (activate_protection runner s1 sid mv t2).2.1.modified
        = (if mv = true then move_positions_to_breakeven runner sid s1.tracker_signals { s1.venue with pending := s1.venue.pending.filter (fun o => ¬ ((protSelectedPending s1 sid).map (·.ticket)).contains o.ticket) } else ({ s1.venue with pending := s1.venue.pending.filter (fun o => ¬ ((protSelectedPending s1 sid).map (·.ticket)).contains o.ticket) }, ([] : List (ℕ × ℚ)))).2 := rfl
    rw [hA2v, hA2m, hv12, htr1]
    by_cases hmv : mv = true
    · rw [if_pos hmv]
      have hsv : s1.venue = (move_positions_to_breakeven runner sid st0.tracker_signals { st0.venue with pending := st0.venue.pending.filter (fun o => ¬ ((protSelectedPending st0 sid).map (·.ticket)).contains o.ticket) } : Venue × List (ℕ × ℚ)).1 := by
        rw [hs1]
        simp only [activate_protection, if_pos hmv]
      have hnoop := move_positions_noop runner sid st0.tracker_signals
        { st0.venue with pending := st0.venue.pending.filter (fun o => ¬ ((protSelectedPending st0 sid).map (·.ticket)).contains o.ticket) }
        (fun p hp => hopen p hp)
      rw [hsv, hnoop]
      exact ⟨rfl, rfl⟩
    · rw [if_neg hmv]
      exact ⟨rfl, rfl⟩
  refine ⟨?_, ?_, ?_, ?_, ?_, ?_, ?_⟩
  · have hc : (activate_protection runner s1 sid mv t2).2.1.cancelled
        = (protSelectedPending s1 sid).map (·.ticket) := rfl
    rw [hc, hsel2]
    rfl
  · exact hbkfacts.2
  · exact hbkfacts.1
  · have hp2 : (activate_protection runner s1 sid mv t2).1.protected_signals
        = fun i => if i = sid then true else s1.protected_signals i := rfl
    rw [hp2, hprot1]
    funext i
    by_cases hi : i = sid <;> simp [hi]
  · have hdb2 : (activate_protection runner s1 sid mv t2).1.db
        = (update_signal_status sid "tp2_hit" t2 s1.db).2 := rfl
    rw [hdb2, hdb1]
    by_cases hany : st0.db.any (fun r => r.signal_id == sid) = true
    · have h1 := check_status_after_update_of_match sid "tp2_hit" t1 st0.db
        hany
      have hany1 : ((update_signal_status sid "tp2_hit" t1 st0.db).2).any
          (fun r => r.signal_id == sid) = true := by
        rw [any_update_signal_status]
        exact hany
      have h2 := check_status_after_update_of_match sid "tp2_hit" t2
        ((update_signal_status sid "tp2_hit" t1 st0.db).2) hany1
      rw [h1, h2]
    · have hanyf : st0.db.any (fun r => r.signal_id == sid) = false := by
        revert hany
        cases st0.db.any (fun r => r.signal_id == sid) <;> simp
      rw [update_signal_status_of_no_match sid "tp2_hit" t1 st0.db hanyf]
      rw [update_signal_status_of_no_match sid "tp2_hit" t2 st0.db hanyf]
  · show (if sid = sid then some t2 else s1.protection_timestamps sid)
      = some t2
    rw [if_pos rfl]
  · rfl

end MT5

namespace MT5

/-- Witness for C2: the amended idempotence theorem applied to the concrete
protection state `protSt0` (first call at time 10, second at time 20). -/
theorem activate_protection_second_noop_witness :
    (activate_protection true (activate_protection true protSt0 "sid" true
        10).1 "sid" true 20).2.1.cancelled = [] ∧
    (activate_protection true (activate_protection true protSt0 "sid" true
        10).1 "sid" true 20).2.1.modified = [] ∧
    (activate_protection true (activate_protection true protSt0 "sid" true
        10).1 "sid" true 20).1.venue
      = (activate_protection true protSt0 "sid" true 10).1.venue ∧
    (activate_protection true (activate_protection true protSt0 "sid" true
        10).1 "sid" true 20).1.protected_signals
      = (activate_protection true protSt0 "sid" true 10).1.protected_signals ∧
    check_signal_status "sid"
        (activate_protection true (activate_protection true protSt0 "sid"
          true 10).1 "sid" true 20).1.db
      = check_signal_status "sid"
          (activate_protection true protSt0 "sid" true 10).1.db ∧
    (activate_protection true (activate_protection true protSt0 "sid" true
        10).1 "sid" true 20).1.protection_timestamps "sid" = some 20 ∧
    (activate_protection true (activate_protection true protSt0 "sid" true
        10).1 "sid" true 20).2.2 = true :=
  activate_protection_second_noop true true protSt0 "sid" 10 20
    (by
      intro o ho info hf hsymEq
      rcases List.mem_singleton.1 ho with rfl
      decide)
    (by
      intro p hp
      rcases List.mem_singleton.1 hp with rfl
      norm_num)

end MT5
